import Mathlib

/-!
Verification development for the DownBallotR extraction-and-normalization
core.  The Python sources under `inst/python/` are shallowly embedded:
pandas dataframes become lists of records, machine integers become `Nat`/`Int`,
rationals replace floats, and fallible code returns `Option`/`Except`.
Each definition carries a comment pointing at the Python function it embeds.
-/

namespace DownBallot

/-! ## Python string helpers

Small executable models of the Python `str` operations used by the parsers:
`str.strip`, `str.lower`, `str.upper`, `str.title`, substring containment
(`x in s`), `str.startswith`, `str.replace` and `re.sub(r"\s+", " ", s)`.
All sources handled here are ASCII, for which `Char.toLower`/`Char.toUpper`
agree with Python's case mapping.
-/

/-- Python `\s` on the ASCII range: space, tab, newline, CR, FF, VT. -/
def isPySpace (c : Char) : Bool :=
  c = ' ' || c = '\t' || c = '\n' || c = '\r' || c = '\x0c' || c = '\x0b'

/-- `str.strip()` on a character list. -/
def stripChars (cs : List Char) : List Char :=
  ((cs.dropWhile isPySpace).reverse.dropWhile isPySpace).reverse

/-- `str.strip()`. -/
def pyStrip (s : String) : String := String.mk (stripChars s.data)

/-- `str.lower()` (ASCII). -/
def pyLower (s : String) : String := String.mk (s.data.map Char.toLower)

/-- `str.upper()` (ASCII). -/
def pyUpper (s : String) : String := String.mk (s.data.map Char.toUpper)

/-- Substring test on character lists: does `pat` occur contiguously in `cs`? -/
def listContainsSub (cs pat : List Char) : Bool :=
  match cs with
  | [] => pat.isEmpty
  | _ :: rest => pat.isPrefixOf cs || listContainsSub rest pat

/-- Python `pat in s` (substring containment). -/
def pyContains (s pat : String) : Bool := listContainsSub s.data pat.data

/-- Python `s.startswith(pat)`. -/
def pyStartsWith (s pat : String) : Bool := pat.data.isPrefixOf s.data

/-- Helper for `collapseWsChars`: the flag records whether we are inside a
whitespace run whose single replacement space was already emitted. -/
def collapseWsAux : List Char → Bool → List Char
  | [], _ => []
  | c :: cs, inRun =>
    if isPySpace c then
      if inRun then collapseWsAux cs true
      else ' ' :: collapseWsAux cs true
    else c :: collapseWsAux cs false

/-- `re.sub(r"\s+", " ", s)`: collapse each whitespace run to one space. -/
def collapseWsChars (cs : List Char) : List Char := collapseWsAux cs false

/-- `re.sub(r"\s+", " ", s)`. -/
def collapseWs (s : String) : String := String.mk (collapseWsChars s.data)

/-- `_clean_ws` / `_norm_col`-style normalisation: collapse whitespace, strip. -/
def cleanWs (s : String) : String := pyStrip (collapseWs s)

/-- `str.title()` (ASCII): each maximal run of letters is capitalised on its
first letter with the rest lowered; non-letters are boundaries. -/
def titleChars : List Char → Bool → List Char
  | [], _ => []
  | c :: cs, prevAlpha =>
    if c.isAlpha then
      (if prevAlpha then c.toLower else c.toUpper) :: titleChars cs true
    else
      c :: titleChars cs false

/-- Python `str.title()`. -/
def pyTitle (s : String) : String := String.mk (titleChars s.data false)

/-- Python `s.replace("-", " ")` — a single-character replacement is a
character-wise map. -/
def dashToSpace (s : String) : String :=
  String.mk (s.data.map (fun c => if c = '-' then ' ' else c))

/-- Character-level engine of Python `s.replace("  ", " ")`: scan left to
right, replacing each non-overlapping two-space occurrence by one space. -/
def squeezeDoubleSpace : List Char → List Char
  | [] => []
  | [c] => [c]
  | c1 :: c2 :: cs =>
    if c1 = ' ' ∧ c2 = ' ' then ' ' :: squeezeDoubleSpace cs
    else c1 :: squeezeDoubleSpace (c2 :: cs)

/-- Python `s.replace("  ", " ")`. -/
def pyReplaceDoubleSpace (s : String) : String :=
  String.mk (squeezeDoubleSpace s.data)

/-- Python `s.rstrip(ch)` for a single character: drop trailing copies. -/
def pyRstripChar (s : String) (ch : Char) : String :=
  String.mk ((s.data.reverse.dropWhile (· = ch)).reverse)

/-- Python truthiness of `Optional[str]`: `None` and `""` are falsy. -/
def pyTruthy : Option String → Bool
  | none => false
  | some s => !s.isEmpty

/-- Python `a or b` on `Optional[str]` values. -/
def pyOrStr (a b : Option String) : Option String :=
  if pyTruthy a then a else b

/-- Python `(x or "")` on `Optional[str]`. -/
def pyOrEmpty (a : Option String) : String := a.getD ""

/-! ## NC state-level aggregation (`NorthCarolina/aggregate.py`)

`aggregate_county_to_state` groups county-level rows by the eight-column
state grain, sums the vote columns, computes a per-contest `vote_share`
and a `contest_outcome` label.  Pandas details modelled:

* The vote columns are coerced with `pd.to_numeric(...).fillna(0)` to
  nullable integers; NC vote columns are non-negative tallies, so they are
  embedded as `Nat`.
* `groupby(...).sum()` produces one output row per distinct group key; pandas
  emits groups in sorted-key order while we keep first-occurrence order, a
  permutation the per-contest claims are insensitive to.
* `(out.total_votes / contest_total) * 100` is float division.  With
  non-negative integer votes, a contest total of 0 forces every member's
  votes to 0, so the division is `0/0 = NaN` and `.round(2)` keeps `NaN`
  (= NA).  We model `vote_share` as `Option ℚ` with `none` for that case,
  and the division exactly in `ℚ` with IEEE's round-half-to-even applied at
  two decimals.
-/

/-- One county-level input row of `aggregate_county_to_state` (the eight
grouping columns plus the six vote columns; any other input columns are
dropped by the `groupby`). -/
structure CountyLevelRow where
  state : String
  election_date : String
  contest_name : String
  choice : String
  choice_party : String
  jurisdiction : String
  office : String
  district : String
  election_day : Nat
  early_voting : Nat
  absentee_by_mail : Nat
  absentee_or_early : Nat
  provisional : Nat
  total_votes : Nat
deriving DecidableEq, Repr

/-- The eight-column state-level group key (`group_cols`). -/
structure StateKey where
  state : String
  election_date : String
  contest_name : String
  choice : String
  choice_party : String
  jurisdiction : String
  office : String
  district : String
deriving DecidableEq, Repr, Inhabited

/-- The six-column contest grain (`contest_cols`): no choice columns. -/
structure ContestKey where
  state : String
  election_date : String
  contest_name : String
  jurisdiction : String
  office : String
  district : String
deriving DecidableEq, Repr

/-- Summed vote columns (`vote_cols`). -/
structure VoteTotals where
  election_day : Nat
  early_voting : Nat
  absentee_by_mail : Nat
  absentee_or_early : Nat
  provisional : Nat
  total_votes : Nat
deriving DecidableEq, Repr, Inhabited

def rowKey (r : CountyLevelRow) : StateKey :=
  ⟨r.state, r.election_date, r.contest_name, r.choice, r.choice_party,
   r.jurisdiction, r.office, r.district⟩

def keyContest (k : StateKey) : ContestKey :=
  ⟨k.state, k.election_date, k.contest_name, k.jurisdiction, k.office, k.district⟩

/-- Helper for `dedupKeys`: keys already emitted are carried along. -/
def dedupKeysAux : List StateKey → List StateKey → List StateKey
  | [], _ => []
  | k :: ks, seen =>
    if k ∈ seen then dedupKeysAux ks seen
    else k :: dedupKeysAux ks (k :: seen)

/-- Group keys in first-occurrence order, without duplicates. -/
def dedupKeys (ks : List StateKey) : List StateKey := dedupKeysAux ks []

/-- `groupby(group_cols).sum()` for one group key. -/
def groupSum (rows : List CountyLevelRow) (k : StateKey) : VoteTotals :=
  let grp := rows.filter (fun r => rowKey r = k)
  ⟨(grp.map (·.election_day)).sum,
   (grp.map (·.early_voting)).sum,
   (grp.map (·.absentee_by_mail)).sum,
   (grp.map (·.absentee_or_early)).sum,
   (grp.map (·.provisional)).sum,
   (grp.map (·.total_votes)).sum⟩

/-- The grouped state-level table (`out` after step 1 of the source). -/
def stateGroups (rows : List CountyLevelRow) : List (StateKey × VoteTotals) :=
  (dedupKeys (rows.map rowKey)).map (fun k => (k, groupSum rows k))

/-- `total_votes` of the members of one contest, in table order
(`groupby(contest_cols)["total_votes"]`). -/
def contestVotes (out : List (StateKey × VoteTotals)) (ck : ContestKey) : List Nat :=
  (out.filter (fun p => keyContest p.1 = ck)).map (·.2.total_votes)

/-- `transform("sum")` of `total_votes` over one contest. -/
def contestTotal (out : List (StateKey × VoteTotals)) (ck : ContestKey) : Nat :=
  (contestVotes out ck).sum

/-- `transform("max")` of `total_votes` over one contest. -/
def contestMax (out : List (StateKey × VoteTotals)) (ck : ContestKey) : Nat :=
  (contestVotes out ck).foldl max 0

/-- Number of rows of the contest that attain the contest maximum
(`is_top.groupby(contest_cols).transform("sum")`). -/
def contestTopCount (out : List (StateKey × VoteTotals)) (ck : ContestKey) : Nat :=
  ((contestVotes out ck).filter (fun v => v = contestMax out ck)).length

/-- IEEE-style round half to even of a rational to an integer
(the rounding used by `pandas.Series.round`). -/
def roundHalfEven (x : ℚ) : ℤ :=
  if x - ⌊x⌋ < 1/2 then ⌊x⌋
  else if 1/2 < x - ⌊x⌋ then ⌊x⌋ + 1
  else if Even ⌊x⌋ then ⌊x⌋ else ⌊x⌋ + 1

/-- `.round(2)`: round half to even at two decimal places. -/
def round2 (x : ℚ) : ℚ := (roundHalfEven (x * 100) : ℚ) / 100

/-- One output row of `aggregate_county_to_state`. -/
structure StateLevelRow where
  key : StateKey
  votes : VoteTotals
  vote_share : Option ℚ
  contest_outcome : String
deriving DecidableEq, Repr, Inhabited

/-- Attach `vote_share` and `contest_outcome` to one grouped row (steps 2-3
of the source, row-aligned like the pandas `transform` calls).  The outcome
mirrors the source's masked assignments: default `"Loser"`, overwritten
with `"Winner"` on a unique top row and `"Tied Winner"` on tied top rows. -/
def buildStateRow (out : List (StateKey × VoteTotals)) (p : StateKey × VoteTotals) :
    StateLevelRow :=
  { key := p.1
    votes := p.2
    vote_share :=
      if contestTotal out (keyContest p.1) = 0 then none
      else some (round2 ((p.2.total_votes : ℚ) /
        (contestTotal out (keyContest p.1) : ℚ) * 100))
    contest_outcome :=
      if p.2.total_votes = contestMax out (keyContest p.1) ∧
         contestTopCount out (keyContest p.1) = 1 then "Winner"
      else if p.2.total_votes = contestMax out (keyContest p.1) ∧
         1 < contestTopCount out (keyContest p.1) then "Tied Winner"
      else "Loser" }

/-- `aggregate_county_to_state`: group to the state grain, then attach
`vote_share` and `contest_outcome`. -/
def aggregateCountyToState (rows : List CountyLevelRow) : List StateLevelRow :=
  (stateGroups rows).map (buildStateRow (stateGroups rows))

/-- The rows of the aggregated output that belong to one contest. -/
def stateContestGroup (rows : List CountyLevelRow) (ck : ContestKey) : List StateLevelRow :=
  (aggregateCountyToState rows).filter (fun s => keyContest s.key = ck)

/-- `total_votes` of the rows of an aggregated contest group. -/
def groupVotes (grp : List StateLevelRow) : List Nat :=
  grp.map (fun s => s.votes.total_votes)

/-- Maximum `total_votes` within an aggregated contest group. -/
def groupMax (grp : List StateLevelRow) : Nat :=
  (groupVotes grp).foldl max 0

/-- Number of rows of an aggregated contest group that attain its maximum. -/
def groupTopCount (grp : List StateLevelRow) : Nat :=
  ((groupVotes grp).filter (fun v => v = groupMax grp)).length

/-- The `vote_share` values of a contest group (`0` standing for NA). -/
def groupShares (grp : List StateLevelRow) : List ℚ :=
  grp.map (fun s => (s.vote_share.getD 0))

/-! ## NC contest-name grammar parsing (`NorthCarolina/canonicalize.py`)

`extract_jurisdiction_office_and_district` normalizes the contest label and
matches it against two Python verbose regexes (`_CONTEST_RE`, then
`_CONTEST_RE2`).  The regexes are embedded as abstract syntax trees over a
small backtracking engine with CPython `re` semantics: ordered alternation,
greedy `?` and character-class `+`/`*` with give-back backtracking, the lazy
`+?`, named capture groups (a group's value is its last successful
participation on the final match path), and an end anchor (the normalized
input never ends in a newline, so `$` is end-of-input).  The two
group-quantified stars of `_CONTEST_RE2` always consume at least one
character per iteration (each body starts with `\s+`), so they are expanded
to at most `n` greedy repetitions with `n` the length of the input
(`starN`); the expansion is exact for inputs of length `≤ n`.  All inputs
are ASCII, where `Char.toUpper`/`Char.toLower`/`isAlpha` agree with Python.
-/

inductive Rx where
  | eps
  | tok (p : Char → Bool)
  | lit (s : List Char)
  | seq (a b : Rx)
  | alt (a b : Rx)
  | opt (a : Rx)
  | many (p : Char → Bool)
  | many1 (p : Char → Bool)
  | many1Lazy (p : Char → Bool)
  | grp (name : String) (a : Rx)
  | eos

abbrev Caps := List (String × String)

abbrev MatchK := List Char → Caps → Option Caps

def classTake (p : Char → Bool) (cs : List Char) : Nat := (cs.takeWhile p).length

def tryFromDesc (k : MatchK) (cs : List Char) (g : Caps) (lo : Nat) : Nat → Option Caps
  | 0 => if lo = 0 then k cs g else none
  | i + 1 =>
    if i + 1 < lo then none
    else
      match k (cs.drop (i + 1)) g with
      | some r => some r
      | none => tryFromDesc k cs g lo i

def tryFromAsc (k : MatchK) (cs : List Char) (g : Caps) : Nat → Nat → Option Caps
  | 0, _ => none
  | fuel + 1, i =>
    match k (cs.drop i) g with
    | some r => some r
    | none => tryFromAsc k cs g fuel (i + 1)

def mrun : Rx → List Char → Caps → MatchK → Option Caps
  | .eps, cs, g, k => k cs g
  | .tok p, cs, g, k =>
    match cs with
    | [] => none
    | c :: rest => if p c then k rest g else none
  | .lit s, cs, g, k => if s.isPrefixOf cs then k (cs.drop s.length) g else none
  | .seq a b, cs, g, k => mrun a cs g (fun cs2 g2 => mrun b cs2 g2 k)
  | .alt a b, cs, g, k =>
    match mrun a cs g k with
    | some r => some r
    | none => mrun b cs g k
  | .opt a, cs, g, k =>
    match mrun a cs g k with
    | some r => some r
    | none => k cs g
  | .many p, cs, g, k => tryFromDesc k cs g 0 (classTake p cs)
  | .many1 p, cs, g, k =>
    if classTake p cs = 0 then none else tryFromDesc k cs g 1 (classTake p cs)
  | .many1Lazy p, cs, g, k =>
    if classTake p cs = 0 then none else tryFromAsc k cs g (classTake p cs) 1
  | .grp n a, cs, g, k =>
    mrun a cs g (fun cs2 g2 =>
      k cs2 ((n, String.mk (cs.take (cs.length - cs2.length))) :: g2))
  | .eos, cs, g, k =>
    match cs with
    | [] => k cs g
    | _ :: _ => none

def rmatch (r : Rx) (cs : List Char) : Option Caps :=
  mrun r cs [] (fun _ g => some g)

def capLookup (g : Caps) (n : String) : Option String :=
  (g.find? (fun p => p.1 = n)).map (fun p => p.2)

def rseq (l : List Rx) : Rx := l.foldr Rx.seq Rx.eps

def ralt : List Rx → Rx
  | [] => .tok (fun _ => false)
  | [a] => a
  | a :: b :: rest => .alt a (ralt (b :: rest))

def rlit (s : String) : Rx := .lit s.data

def starN : Nat → Rx → Rx
  | 0, _ => .eps
  | n + 1, body => .opt (.seq body (starN n body))

def sp1 : Rx := .many1 isPySpace

def sp0 : Rx := .many isPySpace

def isUpperAZ (c : Char) : Bool := 'A' ≤ c && c ≤ 'Z'

def isDigitC (c : Char) : Bool := c.isDigit

def isRomanC (c : Char) : Bool :=
  c = 'I' || c = 'V' || c = 'X' || c = 'L' || c = 'C' || c = 'D' || c = 'M'

def jurClass1 (c : Char) : Bool :=
  isUpperAZ c || isDigitC c || isPySpace c || c = '&' || c = '-' || c = '.' ||
    c = '–' || c = '—'

def wordClass2 (c : Char) : Bool :=
  isUpperAZ c || isDigitC c || c = '&' || c = '.' || c = '-'

def dashOrSpace (c : Char) : Bool := c = '-' || isPySpace c

def lparen (c : Char) : Bool := c = '\x28'

def rparen (c : Char) : Bool := c = '\x29'

def unitRx : Rx := ralt [rlit "CITY", rlit "TOWN", rlit "VILLAGE"]

def p1OfficeRx : Rx := ralt [
  rlit "MAYOR",
  rseq [rlit "COUNCIL", sp1, rlit "MEMBER", .opt (rlit "S")],
  rlit "COUNCILMAN",
  rlit "COUNCILMEN",
  rseq [rlit "COUNCIL", .opt (rseq [sp1, rlit "MEMBER", .opt (rlit "S")])],
  rseq [unitRx, sp1, rlit "COUNCIL", .opt (rseq [sp1, rlit "MEMBER", .opt (rlit "S")])],
  rseq [unitRx, sp1, rlit "COUNCILMEN"],
  rlit "BOARD",
  rseq [rlit "BOARD", sp1, rlit "MEMBER", .opt (rlit "S")],
  rseq [rlit "BOARD", sp1, rlit "OF", sp1, rlit "DIRECTORS"],
  rseq [rlit "BOARD", sp1, rlit "OF", sp1, rlit "EDUCATION"],
  rseq [rlit "BOARD", sp1, rlit "OF", sp1, rlit "TRUSTEES"],
  rseq [rlit "BOARD", sp1, rlit "OF", sp1, rlit "ALDERMEN"],
  rseq [rlit "BOARD", sp1, rlit "OF", sp1, rlit "COMMISSIONERS"],
  rseq [rlit "COMMISSIONER", .opt (rlit "S")],
  rseq [rlit "TRUSTEE", .opt (rlit "S")],
  rlit "ALDERMAN",
  rlit "ALDERMEN",
  rseq [rlit "ALDERMAN", .opt (rlit "S")]
]

def ordinalWardWordRx : Rx := ralt [
  rlit "FIRST", rlit "SECOND", rlit "THIRD", rlit "FOURTH", rlit "FIFTH",
  rlit "SIXTH", rlit "SEVENTH", rlit "EIGHTH", rlit "NINTH", rlit "TENTH",
  rlit "ELEVENTH", rlit "TWELFTH"
]

def dirWordRx : Rx := ralt [rlit "NORTH", rlit "SOUTH", rlit "EAST", rlit "WEST"]

def ordSuffixRx : Rx := ralt [rlit "ST", rlit "ND", rlit "RD", rlit "TH"]

def wardIdRx : Rx := ralt [.many1 isDigitC, .tok isUpperAZ, .many1 isRomanC]

def p1DistrictRx : Rx := ralt [
  rseq [rlit "AT", .opt (.tok dashOrSpace), rlit "LARGE",
    .opt (rseq [sp1, ralt [
      rseq [.many1 isDigitC, ordSuffixRx, sp1, rlit "WARD"],
      rseq [ordinalWardWordRx, sp1, rlit "WARD"],
      rseq [rlit "WARD", sp1, wardIdRx],
      rseq [dirWordRx, sp1, rlit "WARD"]
    ]])],
  rseq [rlit "DISTRICT", sp1, .many1 isDigitC],
  rseq [rlit "DISTRICT", sp1, .tok isUpperAZ],
  rseq [rlit "WARD", sp1, wardIdRx],
  rseq [.many1 isDigitC, ordSuffixRx, sp1, rlit "WARD"],
  rseq [ordinalWardWordRx, sp1, rlit "WARD"],
  rseq [dirWordRx, sp1, rlit "WARD"],
  rseq [dirWordRx, sp1, rlit "END"],
  rseq [.many1 wordClass2, .opt (rseq [sp1, .many1 wordClass2]), sp1, rlit "DISTRICT"]
]

def contestRe1 : Rx := rseq [
  .opt (rseq [.grp "unit" unitRx, sp1, rlit "OF", sp1]),
  .grp "jurisdiction" (.many1Lazy jurClass1),
  sp1,
  .opt (rseq [unitRx, sp1]),
  .grp "office" p1OfficeRx,
  .opt (rseq [sp1, .grp "district" p1DistrictRx]),
  .opt (rseq [sp0, .tok lparen, .many1 isUpperAZ, .tok rparen]),
  sp0, .eos
]

def wordPlus2 : Rx := .many1 wordClass2

def p2JurWordsRx (n : Nat) : Rx := rseq [wordPlus2, starN n (rseq [sp1, wordPlus2])]

def p2JurisdictionRx (n : Nat) : Rx := ralt [
  rseq [p2JurWordsRx n, sp1, rlit "COUNTY",
    .opt (rseq [sp1, rlit "PUBLIC", sp1, rlit "SCHOOLS"])],
  rseq [p2JurWordsRx n, sp1, rlit "CITY", sp1, rlit "SCHOOLS"],
  rseq [p2JurWordsRx n, sp1, rlit "SANITARY", sp1, rlit "DISTRICT"],
  rseq [p2JurWordsRx n, sp1, rlit "SOIL", sp1, rlit "AND", sp1, rlit "WATER",
    sp1, rlit "CONSERVATION", sp1, rlit "DISTRICT"]
]

def ncOptRx : Rx := .opt (rseq [rlit "NC", sp1])

def p2OfficeRx : Rx := ralt [
  rseq [rlit "US", sp1, rlit "HOUSE", sp1, rlit "OF", sp1, rlit "REPRESENTATIVES"],
  rseq [rlit "US", sp1, rlit "SENATE"],
  rseq [rlit "US", sp1, rlit "PRESIDENT"],
  rseq [rlit "PRESIDENTIAL", sp1, rlit "PREFERENCE"],
  rseq [ncOptRx, rlit "HOUSE", sp1, rlit "OF", sp1, rlit "REPRESENTATIVES"],
  rseq [ncOptRx, rlit "STATE", sp1, rlit "SENATE"],
  rseq [ncOptRx, rlit "ATTORNEY", sp1, rlit "GENERAL"],
  rseq [ncOptRx, rlit "AUDITOR"],
  rseq [ncOptRx, rlit "COMMISSIONER", sp1, rlit "OF", sp1, rlit "AGRICULTURE"],
  rseq [ncOptRx, rlit "COMMISSIONER", sp1, rlit "OF", sp1, rlit "LABOR"],
  rseq [ncOptRx, rlit "COMMISSIONER", sp1, rlit "OF", sp1, rlit "INSURANCE"],
  rseq [ncOptRx, rlit "GOVERNOR"],
  rseq [ncOptRx, rlit "LIEUTENANT", sp1, rlit "GOVERNOR"],
  rseq [ncOptRx, rlit "SECRETARY", sp1, rlit "OF", sp1, rlit "STATE"],
  rseq [ncOptRx, rlit "TREASURER"],
  rseq [ncOptRx, rlit "SUPERINTENDENT", sp1, rlit "OF", sp1, rlit "PUBLIC",
    sp1, rlit "INSTRUCTION"],
  rseq [ncOptRx, rlit "SUPREME", sp1, rlit "COURT", sp1, rlit "CHIEF", sp1,
    rlit "JUSTICE"],
  rseq [ncOptRx, rlit "COURT", sp1, rlit "OF", sp1, rlit "APPEALS", sp1,
    rlit "JUDGE"],
  rseq [ncOptRx, rlit "SUPERIOR", sp1, rlit "COURT", sp1, rlit "JUDGE"],
  rseq [ncOptRx, rlit "DISTRICT", sp1, rlit "COURT", sp1, rlit "JUDGE"],
  rseq [ncOptRx, rlit "SUPREME", sp1, rlit "COURT", sp1, rlit "ASSOCIATE", sp1,
    rlit "JUSTICE"],
  rseq [rlit "DISTRICT", sp1, rlit "ATTORNEY"],
  rlit "SHERIFF",
  rseq [rlit "CLERK", sp1, rlit "OF", sp1, rlit "SUPERIOR", sp1, rlit "COURT"],
  rseq [rlit "REGISTER", sp1, rlit "OF", sp1, rlit "DEEDS"],
  rseq [rlit "BOARD", sp1, rlit "OF", sp1, rlit "COMMISSIONERS"],
  rseq [rlit "BOARD", sp1, rlit "OF", sp1, rlit "EDUCATION",
    .opt (rseq [sp1, rlit "MEMBER"])],
  rlit "SUPERVISOR"
]

def d13Rx : Rx := rseq [.tok isDigitC, .opt (.tok isDigitC), .opt (.tok isDigitC)]

def distNumRx : Rx := ralt [rseq [d13Rx, .opt (.tok isUpperAZ)], .many1 isRomanC]

def p2QualItemRx : Rx := ralt [
  rseq [rlit "DIST", .opt (rlit "RICT"), sp1, distNumRx],
  rseq [rlit "DISTRICT", sp1, distNumRx],
  rseq [rlit "SEAT", sp1, d13Rx],
  rseq [rlit "AT", .opt (.tok dashOrSpace), rlit "LARGE"],
  rseq [rlit "COUNTY", .opt (.tok dashOrSpace), rlit "WIDE"],
  rseq [rlit "AREA", sp1, ralt [.many1 isRomanC, .tok isUpperAZ, .many1 isDigitC]],
  rlit "CHAIRMAN",
  rlit "MEMBER"
]

def contestRe2 (n : Nat) : Rx := rseq [
  .opt (rseq [.grp "state_prefix" (rlit "NC"), sp1]),
  .opt (rseq [.grp "jurisdiction" (p2JurisdictionRx n), sp1]),
  .grp "office" p2OfficeRx,
  .grp "qualifiers" (starN n (rseq [sp1, p2QualItemRx])),
  .opt (rseq [sp0, .tok lparen, .grp "party" (.many1 isUpperAZ), .tok rparen]),
  sp0, .eos
]

def normalizeContest (s : String) : List Char :=
  let u := s.data.map Char.toUpper
  let u2 := stripChars u
  let u3 := u2.dropWhile (fun c => c = ',' || isPySpace c)
  let u4 := (u3.reverse.dropWhile (fun c => c = ',' || isPySpace c)).reverse
  collapseWsChars u4

def processContestGroups (g : Caps) : Option String × Option String × Option String :=
  let officeRaw := pyStrip (pyOrEmpty (capLookup g "office"))
  let jurisdictionRaw := capLookup g "jurisdiction"
  let statePrefix := capLookup g "state_prefix"
  let jurisdiction :=
    if pyTruthy jurisdictionRaw then some (pyTitle (pyOrEmpty jurisdictionRaw))
    else if pyStartsWith officeRaw "US " then some "US"
    else if statePrefix = some "NC" || pyStartsWith officeRaw "NC " then some "NC"
    else none
  let officeRaw2 :=
    if pyStartsWith officeRaw "US " then String.mk (officeRaw.data.drop 3)
    else if pyStartsWith officeRaw "NC " then String.mk (officeRaw.data.drop 3)
    else officeRaw
  let office :=
    if officeRaw2.isEmpty then none
    else some (pyStrip (pyReplaceDoubleSpace (pyTitle officeRaw2)))
  let districtRaw := pyOrStr (capLookup g "district") (capLookup g "qualifiers")
  let district :=
    if pyTruthy districtRaw then
      some (pyStrip (pyTitle (collapseWs (dashToSpace (pyOrEmpty districtRaw)))))
    else none
  (jurisdiction, office, district)

def extractJurisdictionOfficeAndDistrict (contestName : String) :
    Option String × Option String × Option String :=
  let cs := normalizeContest contestName
  match rmatch contestRe1 cs with
  | some g => processContestGroups g
  | none =>
    match rmatch (contestRe2 cs.length) cs with
    | some g => processContestGroups g
    | none => (none, none, none)

/-! ## Ballotpedia year-page column resolution
(`Ballotpedia/school_board_elections.py`)

`SchoolBoardScraper._col_index` returns the index of the first header whose
lower-cased text contains any of the given (lower-cased) keywords;
`_parse_year_page` resolves the primary-runoff column with
`_col_index(headers, "primary runoff", "primary run-off")` and the plain
primary column with a generator that skips headers containing
`"runoff"`/`"run-off"`.
-/

/-- Index (from `n`) of the first element satisfying `p`. -/
def findFirstIdxAux (p : String → Bool) : List String → Nat → Option Nat
  | [], _ => none
  | h :: t, n => if p h then some n else findFirstIdxAux p t (n + 1)

/-- `_col_index(headers, *keywords)`: case-insensitive substring search,
first matching header wins. -/
def colIndex (headers : List String) (keywords : List String) : Option Nat :=
  findFirstIdxAux
    (fun h => (keywords.map pyLower).any (fun kw => pyContains (pyLower h) kw))
    headers 0

/-- The predicate of `_parse_year_page`'s plain-primary generator:
contains `"primary"` but neither `"runoff"` nor `"run-off"`. -/
def isPlainPrimaryHeader (h : String) : Bool :=
  pyContains (pyLower h) "primary" && !pyContains (pyLower h) "runoff" &&
    !pyContains (pyLower h) "run-off"

/-- A header `_col_index(headers, "primary runoff", "primary run-off")`
accepts. -/
def isPrimaryRunoffHeader (h : String) : Bool :=
  pyContains (pyLower h) "primary runoff" || pyContains (pyLower h) "primary run-off"

/-- `primary_idx` of `_parse_year_page`. -/
def resolvePrimaryIdx (headers : List String) : Option Nat :=
  findFirstIdxAux isPlainPrimaryHeader headers 0

/-- `primary_runoff_idx` of `_parse_year_page`. -/
def resolvePrimaryRunoffIdx (headers : List String) : Option Nat :=
  colIndex headers ["primary runoff", "primary run-off"]

/-! ## Ballotpedia candidate-cell extraction
(`SchoolBoardScraper._parse_candidate_cell`)

The `<td>` holding candidates is a sequence of child nodes: `<img>` markers,
`<a>` candidate links (with their trailing text as `tail`), `<br>` and other
elements.  A node is embedded with exactly the attributes the extractor
reads. -/

def ballotpediaBase : String := "https://ballotpedia.org"

/-- A child node of the candidates cell.  `a` carries `href`, `target`,
its text content and its `tail` text; `img` carries `alt`; every other
element (`<br>`, `<p>`, …) is `other` — the extractor ignores it. -/
inductive BpNode where
  | img (alt : Option String)
  | a (href : Option String) (target : Option String) (text : String)
      (tail : Option String)
  | br
  | other
deriving DecidableEq, Repr

/-- One extracted record: `(name, candidate_url, is_winner, is_incumbent)`. -/
abbrev BpCandidate := String × String × Bool × Bool

/-- Does this `alt` text mark a winner (`"green check mark"`/`"check"`)? -/
def isWinnerMarkerAlt (alt : Option String) : Bool :=
  pyContains (pyLower (pyOrEmpty alt)) "green check mark" ||
    pyContains (pyLower (pyOrEmpty alt)) "check"

/-- Is this `<a>` a non-candidate (survey/campaign) link? -/
def isSkippedLink (href target : Option String) : Bool :=
  pyOrEmpty target = "_blank" || pyContains (pyOrEmpty href) "#Campaign_themes"

/-- Candidate name: `text_content().strip().rstrip("*").strip()`. -/
def bpCandidateName (text : String) : String :=
  pyStrip (pyRstripChar (pyStrip text) '*')

/-- Candidate URL: absolute `href`s pass through, others get the base. -/
def bpCandidateUrl (href : Option String) : String :=
  if pyStartsWith (pyOrEmpty href) "http" then pyOrEmpty href
  else ballotpediaBase ++ pyOrEmpty href

/-- The `_parse_candidate_cell` loop with its `pending_winner` flag. -/
def parseCandidateCellAux : List BpNode → Bool → List BpCandidate
  | [], _ => []
  | .img alt :: rest, pending =>
    if isWinnerMarkerAlt alt then parseCandidateCellAux rest true
    else parseCandidateCellAux rest pending
  | .a href target text tail :: rest, pending =>
    if isSkippedLink href target then parseCandidateCellAux rest pending
    else if (bpCandidateName text).isEmpty then parseCandidateCellAux rest pending
    else
      (bpCandidateName text, bpCandidateUrl href, pending,
        pyContains (pyOrEmpty tail) "(i)") :: parseCandidateCellAux rest false
  | .br :: rest, pending => parseCandidateCellAux rest pending
  | .other :: rest, pending => parseCandidateCellAux rest pending

/-- `SchoolBoardScraper._parse_candidate_cell`. -/
def parseCandidateCell (children : List BpNode) : List BpCandidate :=
  parseCandidateCellAux children false

/-! ## NC raw-layout repair (`NorthCarolina/normalize.py`)

A pandas dataframe is embedded as a column-label list plus string-valued
rows.  Column labels are integers when the file was read with
`header=None`, strings otherwise. -/

/-- A pandas column label: `int` (from `header=None`) or `str`. -/
inductive ColLabel where
  | intL (n : Int)
  | strL (s : String)
deriving DecidableEq, Repr

/-- Python `str(label)`. -/
def colLabelStr : ColLabel → String
  | .intL n => toString n
  | .strL s => s

/-- Dataframe model: column labels and rows of (stringified) cells. -/
structure PandasDF where
  cols : List ColLabel
  rows : List (List String)
deriving DecidableEq, Repr

/-- `_norm_col` on an already-stringified value:
`re.sub(r"\s+", " ", str(c).strip().lower())`. -/
def normStr (s : String) : String := collapseWs (pyLower (pyStrip s))

/-- `_norm_col` on a column label. -/
def normCol (c : ColLabel) : String := normStr (colLabelStr c)

/-- `len(set(_normalized_tokens(expected)))`: distinct normalized expected
tokens. -/
def expectedCount (expected : List String) : Nat :=
  ((expected.map normStr).dedup).length

/-- `len(exp & got)`: distinct normalized expected tokens present among
`tokens`. -/
def overlapCount (tokens expected : List String) : Nat :=
  (((expected.map normStr).dedup).filter (fun x => x ∈ tokens)).length

/-- `_header_overlap_ratio(tokens, expected)` as an exact rational:
`len(exp & got) / len(exp)`, `0.0` for empty `exp`. -/
def headerOverlapFrac (tokens expected : List String) : ℚ :=
  if expectedCount expected = 0 then 0
  else (overlapCount tokens expected : ℚ) / (expectedCount expected : ℚ)

/-- The source's `ratio >= 0.6` test, phrased over the integer counts so it
is executable without rational division (`meetsHeaderThreshold_iff` proves
it equal to `3/5 ≤ headerOverlapFrac`). -/
def meetsHeaderThreshold (tokens expected : List String) : Bool :=
  if expectedCount expected = 0 then false
  else 3 * expectedCount expected ≤ 5 * overlapCount tokens expected

/-- `_is_int_columns`. -/
def isIntColumns (df : PandasDF) : Bool :=
  df.cols.all (fun c => match c with | .intL _ => true | .strL _ => false)

/-- `_df_columns_look_like_expected_header` (threshold 0.6). -/
def dfColumnsLookLike (df : PandasDF) (expected : List String) : Bool :=
  meetsHeaderThreshold (df.cols.map normCol) expected

/-- `_first_row_looks_like_expected_header` (`df.empty` ⇒ no rows here). -/
def firstRowLooksLike (df : PandasDF) (expected : List String) : Bool :=
  match df.rows with
  | [] => false
  | r :: _ => meetsHeaderThreshold (r.map normStr) expected

/-- `_shift_columns_into_first_row`: demote the column labels to a first
data row and assign `expected_cols[: rebuilt.shape[1]]` as the header.
The pandas label assignment `rebuilt.columns = expected_cols[: rebuilt.shape[1]]`
raises a `Length mismatch` `ValueError` when the slice is shorter than the
frame is wide, i.e. when `len(expected_cols) < rebuilt.shape[1]`. -/
def shiftColumnsIntoFirstRow (df : PandasDF) (expected : List String) :
    Except String PandasDF :=
  if expected.length < df.cols.length then Except.error "Length mismatch"
  else Except.ok
    { cols := (expected.take df.cols.length).map ColLabel.strL
      rows := (df.cols.map colLabelStr) :: df.rows }

/-- `_ensure_expected_raw_layout`: cases A-E of the source.  Cases A, C and
E each execute `out.columns = expected[: out.shape[1]]`, which raises a
pandas `Length mismatch` `ValueError` whenever the frame has more columns
than `expected` (the slice then has fewer labels than the frame has
columns); case B assigns only on an exact width match, and case D's shift
runs under an exact width match, so neither can raise. -/
def ensureExpectedRawLayout (df : PandasDF) (expected : List String) :
    Except String PandasDF :=
  if isIntColumns df then
    if expected.length < df.cols.length then Except.error "Length mismatch"
    else Except.ok
      { cols := (expected.take df.cols.length).map ColLabel.strL, rows := df.rows }
  else if dfColumnsLookLike df expected then
    Except.ok (if df.cols.length = expected.length then
      { cols := expected.map ColLabel.strL, rows := df.rows }
    else df)
  else if firstRowLooksLike df expected then
    if expected.length < df.cols.length then Except.error "Length mismatch"
    else Except.ok
      { cols := (expected.take df.cols.length).map ColLabel.strL, rows := df.rows.tail }
  else if df.cols.length = expected.length then
    shiftColumnsIntoFirstRow df expected
  else
    if expected.length < df.cols.length then Except.error "Length mismatch"
    else Except.ok
      { cols := (expected.take df.cols.length).map ColLabel.strL, rows := df.rows }

/-- String-columned frame whose names and first row both miss the expected
header, with a matching column count. -/
def c6Df : PandasDF := ⟨[ColLabel.strL "x", ColLabel.strL "y"], [["1", "2"]]⟩

/-- Expected era columns for the `c6Df` fixture. -/
def c6Expected : List String := ["a", "b"]

/-- Frame whose columns are the expected header. -/
def c6DfHeaderCols : PandasDF :=
  ⟨[ColLabel.strL "County", ColLabel.strL "Precinct"], [["r1", "r2"]]⟩

/-- Frame whose first data row is the expected header. -/
def c6DfHeaderRow : PandasDF :=
  ⟨[ColLabel.strL "x", ColLabel.strL "y"], [["County", "Precinct"], ["r1", "r2"]]⟩

/-- Expected era columns for the header fixtures. -/
def c6ExpectedCP : List String := ["County", "Precinct"]

/-- Three-column frame whose names and first row both miss the expected
header, wider than `c6Expected`: the last-resort positional assignment
raises on it. -/
def c6WideDf : PandasDF :=
  ⟨[ColLabel.strL "x", ColLabel.strL "y", ColLabel.strL "z"], [["1", "2", "3"]]⟩

/-! ## ElectionStats county/city detail parsing
(`ElectionStats/electionStats_county_search.py`)

The lxml document is embedded at the granularity the parser reads it:
tables carry their header cells (with tooltip nodes), their `thead` cells
and their body rows; rows carry their id attribute, label texts and cells.
-/

deriving instance DecidableEq for Except

/-- `" ".join(xs)`. -/
def joinSpace (xs : List String) : String := String.intercalate " " xs

/-- XPath `normalize-space()`: collapse whitespace runs and trim. -/
def normalizeSpaceXp (s : String) : String := cleanWs s

/-- A `tooltip-above` node inside a header cell (`<a>` or `<span>`). -/
structure EsTooltip where
  oldtitle : Option String
  texts : List String
deriving DecidableEq, Repr

/-- A header `<th>`: class attribute, descendant text nodes, and the first
`tooltip-above` descendant (`<a>` preferred over `<span>` by the source;
only the chosen node is modelled). -/
structure EsTh where
  cls : Option String
  texts : List String
  tooltip : Option EsTooltip
deriving DecidableEq, Repr

/-- A body `<td>`: whether it holds an `<a class="label">`/`<span
class="label">`, its `.//div/text()` nodes and all its text nodes. -/
structure EsTd where
  hasLabel : Bool
  divTexts : List String
  texts : List String
deriving DecidableEq, Repr

/-- A body `<tr>`: id attribute, the text of its `a.label` (resp.
`span.label`) descendants, whether it has `./th` cells, whether one of those
holds a label node, and its `./td` cells. -/
structure EsTr where
  idAttr : Option String
  aLabelTexts : List String
  spanLabelTexts : List String
  hasTh : Bool
  thHasLabel : Bool
  tds : List EsTd
deriving DecidableEq, Repr

/-- A results `<table>`: the text content of every descendant `<th>` (for
the locator predicate), the first header row's cells, all `thead` cells
(the trailing-column counter uses a different XPath) and the body rows. -/
structure EsTable where
  thStrings : List String
  ths : List EsTh
  theadThs : List EsTh
  trs : List EsTr
deriving DecidableEq, Repr

/-- A parsed detail page. -/
structure DetailDoc where
  tables : List EsTable
deriving DecidableEq, Repr

/-- `TRAILING_IGNORE_HEADERS`. -/
def trailingIgnoreHeaderList : List String :=
  ["All Others", "Blanks", "No Preference", "Total Votes Cast"]

/-- `LEADING_IGNORE_HEADERS`. -/
def leadingIgnoreHeaderList : List String :=
  ["County/City", "City/Town", "County", "Ward", "Pct", "Precinct"]

/-- The locator predicate: a `<th>` whose `normalize-space()` is exactly
`County/City`, `City/Town` or `County`. -/
def hasCountyHeader (t : EsTable) : Bool :=
  t.thStrings.any (fun s =>
    normalizeSpaceXp s = "County/City" || normalizeSpaceXp s = "City/Town" ||
      normalizeSpaceXp s = "County")

/-- `_extract_candidate_names_from_thead` over the first header row. -/
def extractCandidateNames : List EsTh → List String
  | [] => []
  | th :: rest =>
    if pyContains (pyLower (pyOrEmpty th.cls)) "is_pseudocandidate" ||
       pyContains (pyLower (pyOrEmpty th.cls)) "is-total-votes" then []
    else
      let label := pyStrip (joinSpace th.texts)
      if label ∈ leadingIgnoreHeaderList then extractCandidateNames rest
      else if label ∈ trailingIgnoreHeaderList then []
      else
        match th.tooltip with
        | none => extractCandidateNames rest
        | some node =>
          let oldtitle := pyStrip (pyOrEmpty node.oldtitle)
          let txt := pyStrip (joinSpace node.texts)
          let nm := if oldtitle.isEmpty then txt else oldtitle
          if nm ∈ trailingIgnoreHeaderList then []
          else if nm.isEmpty then extractCandidateNames rest
          else nm :: extractCandidateNames rest

/-- Count of trailing summary labels, walking header labels backwards. -/
def countTrailingAux : List String → Nat
  | [] => 0
  | l :: rest => if l ∈ trailingIgnoreHeaderList then countTrailingAux rest + 1 else 0

/-- `_count_trailing_ignored_columns_from_thead`. -/
def countTrailingIgnored (ths : List EsTh) : Nat :=
  countTrailingAux ((ths.map (fun th => pyStrip (joinSpace th.texts))).reverse)

/-- Digit run to number (the characters are checked to be digits first). -/
def digitsToNat (cs : List Char) : Nat :=
  cs.foldl (fun acc c => acc * 10 + (c.toNat - '0'.toNat)) 0

/-- `_parse_int`: strip, drop commas, accept pure digit strings only. -/
def parsePyInt (s : String) : Option Nat :=
  let cs := (stripChars s.data).filter (fun c => c ≠ ',')
  if cs.isEmpty then none
  else if cs.all (fun c => c.isDigit) then some (digitsToNat cs) else none

/-- `_extract_vote_text_from_td`: prefer the first `div` text. -/
def extractVoteText (td : EsTd) : String :=
  match td.divTexts with
  | t :: _ => pyStrip t
  | [] => pyStrip (String.join td.texts)

/-- `_iter_locality_rows`: `locality-id-` rows, else `division-id-` rows. -/
def iterLocalityRows (trs : List EsTr) : List EsTr :=
  let loc := trs.filter (fun tr => pyStartsWith (pyOrEmpty tr.idAttr) "locality-id-")
  if loc.isEmpty then
    trs.filter (fun tr => pyStartsWith (pyOrEmpty tr.idAttr) "division-id-")
  else loc

/-- `_extract_county_name_from_row`: first `a.label` text, else first
`span.label` text; an all-whitespace name becomes `None`. -/
def extractCountyName (tr : EsTr) : Option String :=
  match tr.aLabelTexts with
  | t :: _ => if (pyStrip t).isEmpty then none else some (pyStrip t)
  | [] =>
    match tr.spanLabelTexts with
    | t :: _ => if (pyStrip t).isEmpty then none else some (pyStrip t)
    | [] => none

/-- `_find_locality_td_index`. -/
def findLocalityTdIdx (tr : EsTr) : Option Nat :=
  match tr.tds.findIdx? (fun td => td.hasLabel) with
  | some i => some i
  | none => if tr.hasTh && tr.thHasLabel then some 0 else none

/-- `_extract_candidate_vote_tds`. -/
def extractCandidateVoteTds (tr : EsTr) (candidateCount trailingIgnoreN : Nat) :
    Option (List EsTd) :=
  match findLocalityTdIdx tr with
  | none => none
  | some locIdx =>
    let dataTds := if tr.hasTh then tr.tds else tr.tds.drop (locIdx + 1)
    let dataTds2 :=
      if 0 < trailingIgnoreN ∧ trailingIgnoreN ≤ dataTds.length then
        dataTds.take (dataTds.length - trailingIgnoreN)
      else dataTds
    if dataTds2.length < candidateCount then none
    else if candidateCount = 0 then some dataTds2
    else some (dataTds2.drop (dataTds2.length - candidateCount))

/-- `CountyVotes` (dataclass, field order preserved). -/
structure CountyVotes where
  state : String
  election_id : Int
  county_or_city : String
  candidate_id : Int
  candidate_name : String
  votes : Nat
deriving DecidableEq, Repr, Inhabited

/-- Python `dict.get` on an insertion list: the last insertion wins. -/
def pyDictGet (m : List (String × Int)) (k : String) : Option Int :=
  (m.reverse.find? (fun p => p.1 = k)).map (fun p => p.2)

/-- `{name: i + 1 for i, name in enumerate(candidate_names)}`. -/
def fallbackCandidateMapAux : List String → Int → List (String × Int)
  | [], _ => []
  | n :: rest, i => (n, i + 1) :: fallbackCandidateMapAux rest (i + 1)

/-- The positional fallback `candidate_id` map. -/
def fallbackCandidateMap (names : List String) : List (String × Int) :=
  fallbackCandidateMapAux names 0

/-- The body of the locality loop of `parse_county_votes_from_detail_html`
(steps 7-9): one input row yields one output row per candidate whose vote
text parses and whose name is in the map; everything else is skipped. -/
def parseLocalityRow (names : List String) (m : List (String × Int))
    (state : String) (electionId : Int) (trailingIgnoreN : Nat) (tr : EsTr) :
    List CountyVotes :=
  match extractCountyName tr with
  | none => []
  | some county =>
    if pyLower county = "totals" then []
    else
      match extractCandidateVoteTds tr names.length trailingIgnoreN with
      | none => []
      | some voteTds =>
        (names.zip voteTds).filterMap (fun p =>
          match parsePyInt (extractVoteText p.2) with
          | none => none
          | some v =>
            match pyDictGet m p.1 with
            | none => none
            | some cid => some ⟨state, electionId, county, cid, p.1, v⟩)

/-- `parse_county_votes_from_detail_html` (on the already-parsed document;
fetching and `html.fromstring` happen in the caller model). -/
def parseCountyVotesFromDetail (doc : DetailDoc) (electionId : Int)
    (state : Option String) (candidateIdMap : Option (List (String × Int))) :
    Except String (List CountyVotes) :=
  match doc.tables.filter hasCountyHeader with
  | [] => .error "Could not find county/city results table."
  | table :: _ =>
    let names := extractCandidateNames table.ths
    if names.isEmpty then
      .error "Could not extract candidate names from table header."
    else
      let trailingIgnoreN := countTrailingIgnored table.theadThs
      let m := candidateIdMap.getD (fallbackCandidateMap names)
      match state with
      | none => .error "state is required to build CountyVotes rows (got None)."
      | some st =>
        .ok ((iterLocalityRows table.trs).flatMap
          (parseLocalityRow names m st electionId trailingIgnoreN))

/-- The first table of the document matching the locator predicate. -/
def firstCountyTable (doc : DetailDoc) : Option EsTable :=
  (doc.tables.filter hasCountyHeader).head?

/-! ### `build_county_dataframe` -/

/-- One row of the input `state_df` (the required columns plus `state`). -/
structure StateDfRow where
  state : String
  election_id : Int
  detail_url : String
deriving DecidableEq, Repr

/-- The input `state_df`: whether a `state` column exists, and its rows. -/
structure StateDf where
  hasState : Bool
  rows : List StateDfRow
deriving DecidableEq, Repr

/-- The output schema, depending on the presence of `state`. -/
def countyOutCols (hasState : Bool) : List String :=
  if hasState then
    ["state", "election_id", "candidate_id", "county_or_city", "candidate_name",
     "votes"]
  else
    ["election_id", "candidate_id", "county_or_city", "candidate_name", "votes"]

/-- Column order of a successfully parsed frame (dataclass field order). -/
def countyVotesCols : List String :=
  ["state", "election_id", "county_or_city", "candidate_id", "candidate_name",
   "votes"]

/-- The output dataframe: column labels plus rows. -/
structure CountyDF where
  columns : List String
  rows : List CountyVotes
deriving DecidableEq, Repr

/-- The job list `(state, election_id, url)` (blank urls skipped). -/
def buildJobs (sdf : StateDf) : List (Option String × Int × String) :=
  sdf.rows.filterMap (fun r =>
    if (pyStrip r.detail_url).isEmpty then none
    else some ((if sdf.hasState then some r.state else none), r.election_id,
      pyStrip r.detail_url))

/-- Fetch-and-parse of one unit: `client.get_html` (which may fail) composed
with the detail parser (which may raise). -/
def runCountyUnit (getHtml : String → Except String DetailDoc)
    (j : Option String × Int × String) : Except String (List CountyVotes) :=
  match getHtml j.2.2 with
  | .error e => .error e
  | .ok doc => parseCountyVotesFromDetail doc j.2.1 j.1 none

/-- The `try/except` unit loop: failed units are logged and skipped, empty
parses are dropped, successful non-empty frames are kept in order. -/
def collectCountyFrames (getHtml : String → Except String DetailDoc) :
    List (Option String × Int × String) → List (List CountyVotes)
  | [] => []
  | j :: js =>
    match runCountyUnit getHtml j with
    | .error _ => collectCountyFrames getHtml js
    | .ok rows =>
      if rows.isEmpty then collectCountyFrames getHtml js
      else rows :: collectCountyFrames getHtml js

/-- `build_county_dataframe`. -/
def buildCountyDataframe (getHtml : String → Except String DetailDoc)
    (sdf : StateDf) : CountyDF :=
  if (buildJobs sdf).isEmpty then ⟨countyOutCols sdf.hasState, []⟩
  else
    let frames := collectCountyFrames getHtml (buildJobs sdf)
    if frames.isEmpty then ⟨countyOutCols sdf.hasState, []⟩
    else ⟨countyVotesCols, frames.flatten⟩

/-! ## ElectionStats search parsing and pagination
(`ElectionStats/electionStats_search.py`)

`parse_search_results` walks the result rows of one page; each row is
handled by a generation-specific row parser and candidate extractor, so the
loop is embedded parametrically in both (`τ` is the row type, `γ` the
candidates payload — a nested table cell for classic states, a results
summary string for v2 states). -/

/-- One emitted search row (`ElectionSearchRow` dataclass). -/
structure ElectionSearchRow where
  state : String
  election_id : Int
  year : Int
  office : String
  district : String
  stage : String
  candidate_id : Int
  candidate : String
  party : String
  total_vote_count : Int
  vote_percentage : String
  contest_outcome : String
deriving DecidableEq, Repr

/-- An extracted candidate tuple
`(candidate_name, party, vote_count, vote_percentage, contest_outcome)`. -/
structure CandTuple where
  name : String
  party : Option String
  votes : Int
  pct : Option String
  outcome : String
deriving DecidableEq, Repr

/-- The per-race header a row parser returns
(`election_id, year, stage, office, district`). -/
structure RaceHeader where
  election_id : Int
  year : Int
  stage : String
  office : String
  district : String
deriving DecidableEq, Repr

/-- `_infer_party_from_stage`. -/
def inferPartyFromStage (stage : String) : Option String :=
  if pyContains (pyLower (cleanWs stage)) "democratic" &&
     pyContains (pyLower (cleanWs stage)) "primary" then some "Democratic"
  else if pyContains (pyLower (cleanWs stage)) "republican" &&
     pyContains (pyLower (cleanWs stage)) "primary" then some "Republican"
  else if pyContains (pyLower (cleanWs stage)) "libertarian" &&
     pyContains (pyLower (cleanWs stage)) "primary" then some "Libertarian"
  else none

/-- `_is_write_in_party`: strip brackets, whitespace and dashes, then look
for `"writein"`. -/
def isWriteInParty (party : String) : Bool :=
  if party.isEmpty then false
  else
    pyContains
      (String.mk (((pyLower (pyStrip party)).data.filter (fun c =>
          ¬(c = '\x28' ∨ c = '\x29' ∨ c = '[' ∨ c = ']' ∨ c = '\x7b' ∨
            c = '\x7d'))).filter
        (fun c => ¬(isPySpace c ∨ c = '-'))))
      "writein"

/-- `_normalize_party`: an inferred primary party replaces a blank or
write-in party marker. -/
def normalizeParty (party : Option String) (stage : String) : String :=
  match inferPartyFromStage stage with
  | some inferred =>
    if (pyStrip (pyOrEmpty party)).isEmpty ∨ isWriteInParty (pyStrip (pyOrEmpty party))
    then inferred
    else pyStrip (pyOrEmpty party)
  | none => pyStrip (pyOrEmpty party)

/-- Python `state_name or client.state`. -/
def pyOrStrVal (a : Option String) (b : String) : String :=
  if pyTruthy a then a.getD "" else b

/-- The inner `enumerate(candidate_rows, start=1)` loop: one
`ElectionSearchRow` per candidate, `candidate_id` positional from 1. -/
def emitCandidates (stateName : Option String) (clientState : String)
    (h : RaceHeader) (cands : List CandTuple) : List ElectionSearchRow :=
  cands.enum.map (fun p =>
    { state := pyOrStrVal stateName clientState
      election_id := h.election_id
      year := h.year
      office := h.office
      district := h.district
      stage := h.stage
      candidate_id := (p.1 : Int) + 1
      candidate := p.2.name
      party := normalizeParty p.2.party h.stage
      total_vote_count := p.2.votes
      vote_percentage := pyStrip (pyOrEmpty p.2.pct)
      contest_outcome := p.2.outcome })

/-- The rows one `<tr>` contributes (nothing when the row does not parse or
extracts no candidates — `emitCandidates` of `[]` is `[]`). -/
def emitRace {τ γ : Type} (parseRow : τ → Option (RaceHeader × γ))
    (extractCands : γ → List CandTuple) (stateName : Option String)
    (clientState : String) (tr : τ) : List ElectionSearchRow :=
  match parseRow tr with
  | none => []
  | some hc => emitCandidates stateName clientState hc.1 (extractCands hc.2)

/-- The `parse_search_results` row loop with its `out` accumulator. -/
def parseSearchResultsAux {τ γ : Type} (parseRow : τ → Option (RaceHeader × γ))
    (extractCands : γ → List CandTuple) (stateName : Option String)
    (clientState : String) : List τ → List ElectionSearchRow → List ElectionSearchRow
  | [], out => out
  | tr :: rest, out =>
    match parseRow tr with
    | none => parseSearchResultsAux parseRow extractCands stateName clientState rest out
    | some hc =>
      if (extractCands hc.2).isEmpty then
        parseSearchResultsAux parseRow extractCands stateName clientState rest out
      else
        parseSearchResultsAux parseRow extractCands stateName clientState rest
          (out ++ emitCandidates stateName clientState hc.1 (extractCands hc.2))

/-- `parse_search_results`. -/
def parseSearchResults {τ γ : Type} (parseRow : τ → Option (RaceHeader × γ))
    (extractCands : γ → List CandTuple) (stateName : Option String)
    (clientState : String) (trs : List τ) : List ElectionSearchRow :=
  parseSearchResultsAux parseRow extractCands stateName clientState trs []

/-- The pagination key `(election_id, candidate_id)`. -/
def searchKey (r : ElectionSearchRow) : Int × Int := (r.election_id, r.candidate_id)

/-- The `iter_search_results` loop.  `fetch` stands for
`fetch_search_results(client, …, page)`; the `Nat` fuel is the remaining
iteration budget of `for _ in range(max_pages)`.  Returns the yielded rows
and the number of page fetches performed. -/
def iterSearchResultsAux (fetch : Nat → List ElectionSearchRow)
    (seen : List (Int × Int)) (page : Nat) : Nat → List ElectionSearchRow × Nat
  | 0 => ([], 0)
  | fuel + 1 =>
    if (fetch page).isEmpty then ([], 1)
    else
      if ((fetch page).filter (fun r => ¬(searchKey r ∈ seen))).isEmpty then ([], 1)
      else
        ((fetch page).filter (fun r => ¬(searchKey r ∈ seen)) ++
          (iterSearchResultsAux fetch
            (seen ++ ((fetch page).filter (fun r => ¬(searchKey r ∈ seen))).map searchKey)
            (page + 1) fuel).1,
         (iterSearchResultsAux fetch
            (seen ++ ((fetch page).filter (fun r => ¬(searchKey r ∈ seen))).map searchKey)
            (page + 1) fuel).2 + 1)

/-- `iter_search_results` (rows yielded, fetches performed). -/
def iterSearchResults (fetch : Nat → List ElectionSearchRow)
    (startPage maxPages : Nat) : List ElectionSearchRow × Nat :=
  iterSearchResultsAux fetch [] startPage maxPages

/-! ### Concrete search fixtures -/

/-- A race header for the search fixtures. -/
def c9Header : RaceHeader := ⟨11, 2024, "General", "Mayor", ""⟩

/-- Two candidates of one race. -/
def c9Cands : List CandTuple :=
  [⟨"A", none, 10, some "60%", "Winner"⟩, ⟨"B", some "Dem", 5, none, "Loser"⟩]

/-- A toy row parser over `Nat` rows: row `0` parses, everything else is
rejected. -/
def c9ParseRow : Nat → Option (RaceHeader × List CandTuple) :=
  fun tr => if tr = 0 then some (c9Header, c9Cands) else none

/-- A search row with key `(1, 1)`. -/
def c10Row1 : ElectionSearchRow :=
  ⟨"VA", 1, 2024, "Mayor", "", "General", 1, "A", "", 10, "", "Winner"⟩

/-- A different row with the same key `(1, 1)`. -/
def c10Row2 : ElectionSearchRow :=
  ⟨"VA", 1, 2024, "Mayor", "", "General", 1, "B", "", 5, "", "Loser"⟩

/-- Every page repeats the same two rows sharing one key. -/
def c10Fetch : Nat → List ElectionSearchRow := fun _ => [c10Row1, c10Row2]

/-- Every page holds one row with key `(1, 1)`. -/
def c10GoodFetch : Nat → List ElectionSearchRow := fun _ => [c10Row1]

/-- A source with no rows at all. -/
def c10EmptyFetch : Nat → List ElectionSearchRow := fun _ => []

/-! ### Concrete county-parsing fixtures -/

/-- A detail document with no tables at all (no locator match). -/
def c8BadDoc : DetailDoc := ⟨[]⟩

/-- Header cell of the locality column. -/
def c8Th0 : EsTh := ⟨none, ["County/City"], none⟩

/-- Header cell of the only candidate, named via the tooltip `oldtitle`. -/
def c8Th1 : EsTh := ⟨none, ["JD"], some ⟨some "Jane Doe", []⟩⟩

/-- One locality row: a label cell then a vote cell reading `1,234`. -/
def c8Tr : EsTr :=
  ⟨some "locality-id-1", ["Accomack"], [], false, false,
   [⟨true, [], []⟩, ⟨false, ["1,234"], []⟩]⟩

/-- A well-formed single-candidate county table. -/
def c8Table : EsTable := ⟨["County/City"], [c8Th0, c8Th1], [c8Th0, c8Th1], [c8Tr]⟩

/-- A detail document holding `c8Table`. -/
def c8Doc : DetailDoc := ⟨[c8Table]⟩

/-- A client that always returns `c8Doc`. -/
def c8GetHtml : String → Except String DetailDoc := fun _ => .ok c8Doc

/-- A client whose fetch always fails. -/
def c8GetHtmlFail : String → Except String DetailDoc := fun _ => .error "boom"

/-- The row parsed out of `c8Doc` for election 7 in state `VA`. -/
def c8Row : CountyVotes := ⟨"VA", 7, "Accomack", 1, "Jane Doe", 1234⟩

/-! ### Concrete aggregation fixtures -/

/-- Two-candidate contest with a unique leader (5 vs 3 total votes). -/
def c1Rows : List CountyLevelRow :=
  [⟨"NC", "2024-11-05", "GOVERNOR", "A", "DEM", "NC", "Governor", "", 2, 1, 1, 0, 1, 5⟩,
   ⟨"NC", "2024-11-05", "GOVERNOR", "B", "REP", "NC", "Governor", "", 1, 1, 1, 0, 0, 3⟩]

/-- Two-candidate contest tied at 4 total votes each. -/
def c1TieRows : List CountyLevelRow :=
  [⟨"NC", "2024-11-05", "MAYOR", "A", "", "NC", "Mayor", "", 2, 1, 0, 0, 1, 4⟩,
   ⟨"NC", "2024-11-05", "MAYOR", "B", "", "NC", "Mayor", "", 1, 2, 0, 0, 1, 4⟩]

/-- A positive-total contest (5 vs 3) next to an all-zero contest (0, 0). -/
def c2Rows : List CountyLevelRow :=
  [⟨"NC", "2024-11-05", "GOVERNOR", "A", "DEM", "NC", "Governor", "", 2, 1, 1, 0, 1, 5⟩,
   ⟨"NC", "2024-11-05", "GOVERNOR", "B", "REP", "NC", "Governor", "", 1, 1, 1, 0, 0, 3⟩,
   ⟨"NC", "2024-11-05", "SENATE", "C", "DEM", "NC", "Senator", "", 0, 0, 0, 0, 0, 0⟩,
   ⟨"NC", "2024-11-05", "SENATE", "D", "REP", "NC", "Senator", "", 0, 0, 0, 0, 0, 0⟩]

/-- Contest key of the positive-total contest of `c2Rows`. -/
def c2PosKey : ContestKey := ⟨"NC", "2024-11-05", "GOVERNOR", "NC", "Governor", ""⟩

/-- Contest key of the zero-total contest of `c2Rows`. -/
def c2ZeroKey : ContestKey := ⟨"NC", "2024-11-05", "SENATE", "NC", "Senator", ""⟩

/-! # Theorems -/

/-! ### Lemmas relating contest groups of the output to the grouped table -/

theorem filter_map_comm {α β : Type} (f : α → β) (p : β → Bool) (l : List α) :
    (l.map f).filter p = (l.filter (fun a => p (f a))).map f := by
  induction l with
  | nil => rfl
  | cons a l ih =>
    simp only [List.map_cons, List.filter_cons]
    cases p (f a) <;> simp [ih]

theorem stateContestGroup_eq (rows : List CountyLevelRow) (ck : ContestKey) :
    stateContestGroup rows ck =
      ((stateGroups rows).filter (fun p => keyContest p.1 = ck)).map
        (buildStateRow (stateGroups rows)) := by
  unfold stateContestGroup aggregateCountyToState
  rw [filter_map_comm]
  rfl

theorem groupVotes_stateContestGroup (rows : List CountyLevelRow) (ck : ContestKey) :
    groupVotes (stateContestGroup rows ck) = contestVotes (stateGroups rows) ck := by
  rw [stateContestGroup_eq]
  unfold groupVotes contestVotes
  rw [List.map_map]
  rfl

theorem groupMax_stateContestGroup (rows : List CountyLevelRow) (ck : ContestKey) :
    groupMax (stateContestGroup rows ck) = contestMax (stateGroups rows) ck := by
  unfold groupMax contestMax
  rw [groupVotes_stateContestGroup]

theorem groupTopCount_stateContestGroup (rows : List CountyLevelRow) (ck : ContestKey) :
    groupTopCount (stateContestGroup rows ck) = contestTopCount (stateGroups rows) ck := by
  unfold groupTopCount contestTopCount
  rw [groupVotes_stateContestGroup, groupMax_stateContestGroup]

theorem mem_aggregate_iff (rows : List CountyLevelRow) (r : StateLevelRow) :
    r ∈ aggregateCountyToState rows ↔
      ∃ p ∈ stateGroups rows, buildStateRow (stateGroups rows) p = r := by
  unfold aggregateCountyToState
  simp [List.mem_map]

/-! ### Rounding error bounds -/

theorem roundHalfEven_close (x : ℚ) : |((roundHalfEven x : ℤ) : ℚ) - x| ≤ 1/2 := by
  have h1 : ((⌊x⌋ : ℤ) : ℚ) ≤ x := Int.floor_le x
  have h2 : x < ((⌊x⌋ : ℤ) : ℚ) + 1 := Int.lt_floor_add_one x
  unfold roundHalfEven
  split_ifs with hc1 hc2 he <;>
    · rw [abs_le]
      push_cast
      constructor <;> linarith

theorem round2_close (x : ℚ) : |round2 x - x| ≤ 1/200 := by
  have h := roundHalfEven_close (x * 100)
  have heq : round2 x - x = (((roundHalfEven (x * 100) : ℤ) : ℚ) - x * 100) / 100 := by
    unfold round2
    ring
  rw [heq, abs_div]
  have h100 : |(100 : ℚ)| = 100 := by norm_num
  rw [h100]
  rw [div_le_iff₀ (by norm_num : (0:ℚ) < 100)]
  linarith

theorem sum_round2_close (l : List ℚ) :
    |(l.map round2).sum - l.sum| ≤ (l.length : ℚ) * (1/200) := by
  induction l with
  | nil => simp
  | cons a l ih =>
    simp only [List.map_cons, List.sum_cons, List.length_cons]
    have tri : |round2 a + (l.map round2).sum - (a + l.sum)| ≤
        |round2 a - a| + |(l.map round2).sum - l.sum| := by
      have : round2 a + (l.map round2).sum - (a + l.sum) =
          (round2 a - a) + ((l.map round2).sum - l.sum) := by ring
      rw [this]
      exact abs_add _ _
    have hr := round2_close a
    push_cast
    linarith

theorem sum_map_votes_div (l : List Nat) (c : ℚ) :
    (l.map (fun (v : Nat) => ((v : ℚ)) / c * 100)).sum = ((l.sum : ℚ)) / c * 100 := by
  induction l with
  | nil => simp
  | cons a l ih =>
    simp only [List.map_cons, List.sum_cons, ih, Nat.cast_add]
    ring

/-! ### C1: winner / tie labelling in the state aggregation -/

/-- C1.  In `aggregate_county_to_state`, within every contest group of the
output: when exactly one row attains the contest's maximum `total_votes`,
that row is labelled `"Winner"` and every other row `"Loser"`; when several
rows share the maximum, each of them is labelled `"Tied Winner"` (and rows
below the maximum are `"Loser"`). -/
theorem nc_state_outcome_tiebreak (rows : List CountyLevelRow) (r : StateLevelRow)
    (hr : r ∈ aggregateCountyToState rows) :
    (groupTopCount (stateContestGroup rows (keyContest r.key)) = 1 →
      r.contest_outcome =
        if r.votes.total_votes = groupMax (stateContestGroup rows (keyContest r.key))
        then "Winner" else "Loser") ∧
    (1 < groupTopCount (stateContestGroup rows (keyContest r.key)) →
      (r.votes.total_votes = groupMax (stateContestGroup rows (keyContest r.key)) →
        r.contest_outcome = "Tied Winner") ∧
      (r.votes.total_votes ≠ groupMax (stateContestGroup rows (keyContest r.key)) →
        r.contest_outcome = "Loser")) := by
  obtain ⟨p, hp, hpr⟩ := (mem_aggregate_iff rows r).mp hr
  subst hpr
  have hkey : keyContest (buildStateRow (stateGroups rows) p).key = keyContest p.1 := rfl
  have hv : (buildStateRow (stateGroups rows) p).votes.total_votes = p.2.total_votes := rfl
  have hout : (buildStateRow (stateGroups rows) p).contest_outcome =
      if p.2.total_votes = contestMax (stateGroups rows) (keyContest p.1) ∧
         contestTopCount (stateGroups rows) (keyContest p.1) = 1 then "Winner"
      else if p.2.total_votes = contestMax (stateGroups rows) (keyContest p.1) ∧
         1 < contestTopCount (stateGroups rows) (keyContest p.1) then "Tied Winner"
      else "Loser" := rfl
  rw [hkey, hv, hout, groupTopCount_stateContestGroup, groupMax_stateContestGroup]
  constructor
  · intro hn
    by_cases hm : p.2.total_votes = contestMax (stateGroups rows) (keyContest p.1)
    · simp [hm, hn]
    · simp [hm]
  · intro hn
    have h1 : contestTopCount (stateGroups rows) (keyContest p.1) ≠ 1 := by omega
    constructor
    · intro hm
      simp [hm, hn, h1]
    · intro hm
      simp [hm]

/-- C1 witness: on `c1Rows` the first output row (the 5-vote leader) is
labelled `"Winner"`, and on the tied fixture `c1TieRows` the first output
row is labelled `"Tied Winner"`. -/
theorem nc_state_outcome_tiebreak_witness :
    ((aggregateCountyToState c1Rows).head!).contest_outcome = "Winner" ∧
    ((aggregateCountyToState c1TieRows).head!).contest_outcome = "Tied Winner" := by
  have hm1 : (aggregateCountyToState c1Rows).head! ∈ aggregateCountyToState c1Rows := by
    apply List.head!_mem_self
    decide
  have hm2 : (aggregateCountyToState c1TieRows).head! ∈ aggregateCountyToState c1TieRows := by
    apply List.head!_mem_self
    decide
  constructor
  · have h := (nc_state_outcome_tiebreak c1Rows
      ((aggregateCountyToState c1Rows).head!) hm1).1 (by decide)
    rw [h]
    decide
  · exact ((nc_state_outcome_tiebreak c1TieRows
      ((aggregateCountyToState c1TieRows).head!) hm2).2 (by decide)).1 (by decide)

/-! ### C2: vote-share sums and NA-safety -/

/-- C2.  In `aggregate_county_to_state`, for every contest group of the
output: when the contest's `total_votes` total is zero every `vote_share`
is NA (no division error occurs — the output exists); when it is positive
every `vote_share` is present and the shares sum to 100 up to the rounding
tolerance of `.round(2)` (at most 1/200 per row). -/
theorem nc_state_vote_share_invariant (rows : List CountyLevelRow) (ck : ContestKey) :
    ((groupVotes (stateContestGroup rows ck)).sum = 0 →
      ∀ s ∈ stateContestGroup rows ck, s.vote_share = none) ∧
    (0 < (groupVotes (stateContestGroup rows ck)).sum →
      (∀ s ∈ stateContestGroup rows ck, s.vote_share ≠ none) ∧
      |(groupShares (stateContestGroup rows ck)).sum - 100| ≤
        ((stateContestGroup rows ck).length : ℚ) * (1/200)) := by
  have hsum : (groupVotes (stateContestGroup rows ck)).sum =
      contestTotal (stateGroups rows) ck := by
    rw [groupVotes_stateContestGroup]
    rfl
  have hmem : ∀ s ∈ stateContestGroup rows ck,
      ∃ p, p ∈ stateGroups rows ∧ keyContest p.1 = ck ∧
        buildStateRow (stateGroups rows) p = s := by
    intro s hs
    rw [stateContestGroup_eq] at hs
    obtain ⟨p, hp, hps⟩ := List.mem_map.mp hs
    obtain ⟨hp1, hp2⟩ := List.mem_filter.mp hp
    exact ⟨p, hp1, by simpa using hp2, hps⟩
  constructor
  · intro h0 s hs
    obtain ⟨p, _, hpk, hps⟩ := hmem s hs
    rw [hsum] at h0
    have : s.vote_share =
        if contestTotal (stateGroups rows) ck = 0 then none
        else some (round2 ((p.2.total_votes : ℚ) /
          (contestTotal (stateGroups rows) ck : ℚ) * 100)) := by
      rw [← hps, ← hpk]
      rfl
    rw [this, if_pos h0]
  · intro hT
    rw [hsum] at hT
    have hT0 : contestTotal (stateGroups rows) ck ≠ 0 := by omega
    constructor
    · intro s hs
      obtain ⟨p, _, hpk, hps⟩ := hmem s hs
      have : s.vote_share =
          if contestTotal (stateGroups rows) ck = 0 then none
          else some (round2 ((p.2.total_votes : ℚ) /
            (contestTotal (stateGroups rows) ck : ℚ) * 100)) := by
        rw [← hps, ← hpk]
        rfl
      rw [this, if_neg hT0]
      simp
    · -- rewrite the share list as a rounded rescaling of the contest votes
      have hshares : groupShares (stateContestGroup rows ck) =
          (contestVotes (stateGroups rows) ck).map
            (fun (v : Nat) => round2 ((v : ℚ) /
              (contestTotal (stateGroups rows) ck : ℚ) * 100)) := by
        rw [stateContestGroup_eq]
        unfold groupShares contestVotes
        rw [List.map_map, List.map_map]
        refine List.map_congr_left ?_
        intro p hp
        obtain ⟨_, hp2⟩ := List.mem_filter.mp hp
        have hpk : keyContest p.1 = ck := by simpa using hp2
        simp only [Function.comp]
        have : (buildStateRow (stateGroups rows) p).vote_share =
            if contestTotal (stateGroups rows) ck = 0 then none
            else some (round2 ((p.2.total_votes : ℚ) /
              (contestTotal (stateGroups rows) ck : ℚ) * 100)) := by
          rw [← hpk]
          rfl
        rw [this, if_neg hT0]
        rfl
      have hlen : (stateContestGroup rows ck).length =
          (contestVotes (stateGroups rows) ck).length := by
        have := congrArg List.length (groupVotes_stateContestGroup rows ck)
        simpa [groupVotes] using this
      -- the unrounded shares sum to exactly 100
      have hx : ((contestVotes (stateGroups rows) ck).map
          (fun (v : Nat) => (v : ℚ) /
            (contestTotal (stateGroups rows) ck : ℚ) * 100)).sum = 100 := by
        rw [sum_map_votes_div]
        have hTc : ((contestTotal (stateGroups rows) ck : Nat) : ℚ) ≠ 0 := by
          exact_mod_cast hT0
        have hvs : ((contestVotes (stateGroups rows) ck).sum : ℚ) =
            ((contestTotal (stateGroups rows) ck : Nat) : ℚ) := by
          norm_cast
        rw [hvs, div_self hTc]
        norm_num
      have hcomp : groupShares (stateContestGroup rows ck) =
          (((contestVotes (stateGroups rows) ck).map
            (fun (v : Nat) => (v : ℚ) /
              (contestTotal (stateGroups rows) ck : ℚ) * 100)).map round2) := by
        rw [hshares, List.map_map]
        rfl
      have hb := sum_round2_close (((contestVotes (stateGroups rows) ck).map
        (fun (v : Nat) => (v : ℚ) / (contestTotal (stateGroups rows) ck : ℚ) * 100)))
      rw [hx] at hb
      rw [hcomp, hlen]
      simpa using hb

/-- C2 witness: in `c2Rows` the zero-total contest's first row has NA
`vote_share`, and the positive contest's shares sum to 100 within the
rounding tolerance. -/
theorem nc_state_vote_share_invariant_witness :
    ((stateContestGroup c2Rows c2ZeroKey).head!).vote_share = none ∧
    |(groupShares (stateContestGroup c2Rows c2PosKey)).sum - 100| ≤
      ((stateContestGroup c2Rows c2PosKey).length : ℚ) * (1/200) := by
  constructor
  · refine (nc_state_vote_share_invariant c2Rows c2ZeroKey).1 (by decide)
      ((stateContestGroup c2Rows c2ZeroKey).head!) ?_
    apply List.head!_mem_self
    decide
  · exact ((nc_state_vote_share_invariant c2Rows c2PosKey).2 (by decide)).2

/-! ### Substring containment facts -/

theorem listContainsSub_iff_infix (cs pat : List Char) :
    listContainsSub cs pat = true ↔ pat <:+: cs := by
  induction cs with
  | nil =>
    simp [listContainsSub, List.isEmpty_iff]
  | cons c cs ih =>
    simp [listContainsSub, List.isPrefixOf_iff_prefix, ih, List.infix_cons_iff]

theorem pyContains_trans (s p q : String) (hq : q.data <:+: p.data)
    (h : pyContains s p = true) : pyContains s q = true := by
  rw [pyContains, listContainsSub_iff_infix] at h ⊢
  exact hq.trans h

/-! ### First-match index lemma -/

theorem findFirstIdxAux_unique (p : String → Bool) (l : List String) (i : Nat)
    (hlt : i < l.length) (hp : p (l.getD i "") = true)
    (hu : ∀ i2 < l.length, i2 ≠ i → p (l.getD i2 "") = false) (n : Nat) :
    findFirstIdxAux p l n = some (n + i) := by
  induction l generalizing i n with
  | nil => simp at hlt
  | cons h t ih =>
    cases i with
    | zero =>
      have hph : p h = true := by simpa using hp
      simp [findFirstIdxAux, hph]
    | succ m =>
      have hph : p h = false := by
        have := hu 0 (by simp) (by simp)
        simpa using this
      have hmlt : m < t.length := by simpa using hlt
      have hpm : p (t.getD m "") = true := by simpa using hp
      have hum : ∀ i2 < t.length, i2 ≠ m → p (t.getD i2 "") = false := by
        intro i2 h2 hne
        have := hu (i2 + 1) (by simpa using Nat.succ_lt_succ h2) (by omega)
        simpa using this
      have hrec := ih m hmlt hpm hum (n + 1)
      rw [findFirstIdxAux, if_neg (by simp [hph]), hrec]
      congr 1
      omega

/-! ### C4: primary vs primary-runoff column resolution -/

/-- C4.  When a header list has exactly one plain-primary header (contains
`"primary"`, no `"runoff"`/`"run-off"`) at position `i` and exactly one
primary-runoff header at position `j`, `_parse_year_page` resolves the
primary column to `i` and the primary-runoff column to `j`; the two indices
are never equal, in either relative order of `i` and `j`. -/
theorem bp_primary_column_resolution (headers : List String) (i j : Nat)
    (hi_lt : i < headers.length)
    (hpi : isPlainPrimaryHeader (headers.getD i "") = true)
    (hui : ∀ i2 < headers.length, i2 ≠ i →
      isPlainPrimaryHeader (headers.getD i2 "") = false)
    (hj_lt : j < headers.length)
    (hpj : pyContains (pyLower (headers.getD j "")) "primary runoff" = true)
    (huj : ∀ j2 < headers.length, j2 ≠ j →
      isPrimaryRunoffHeader (headers.getD j2 "") = false) :
    resolvePrimaryIdx headers = some i ∧
    resolvePrimaryRunoffIdx headers = some j ∧ i ≠ j := by
  refine ⟨?_, ?_, ?_⟩
  · have := findFirstIdxAux_unique isPlainPrimaryHeader headers i hi_lt hpi hui 0
    simpa [resolvePrimaryIdx] using this
  · have hco : resolvePrimaryRunoffIdx headers =
        findFirstIdxAux isPrimaryRunoffHeader headers 0 := by
      unfold resolvePrimaryRunoffIdx colIndex
      have hmap : (["primary runoff", "primary run-off"].map pyLower) =
          ["primary runoff", "primary run-off"] := by decide
      rw [hmap]
      congr 1
      funext h
      simp [isPrimaryRunoffHeader]
    have hpj2 : isPrimaryRunoffHeader (headers.getD j "") = true := by
      simp only [isPrimaryRunoffHeader, Bool.or_eq_true]
      exact Or.inl hpj
    have := findFirstIdxAux_unique isPrimaryRunoffHeader headers j hj_lt hpj2 huj 0
    rw [hco]
    simpa using this
  · intro heq
    subst heq
    have hro : pyContains (pyLower (headers.getD i "")) "runoff" = true :=
      pyContains_trans _ _ _ (by decide) hpj
    have hnot : pyContains (pyLower (headers.getD i "")) "runoff" = false := by
      have h1 := hpi
      simp only [isPlainPrimaryHeader, Bool.and_eq_true, Bool.not_eq_true'] at h1
      exact h1.1.2
    rw [hro] at hnot
    exact Bool.noConfusion hnot

/-- C4 witness: on `["Primary", "Primary Runoff", "General Election"]` the
plain primary resolves to index 0 and the runoff to index 1. -/
theorem bp_primary_column_resolution_witness :
    resolvePrimaryIdx ["Primary", "Primary Runoff", "General Election"] = some 0 ∧
    resolvePrimaryRunoffIdx ["Primary", "Primary Runoff", "General Election"] = some 1 ∧
    (0 : Nat) ≠ 1 :=
  bp_primary_column_resolution ["Primary", "Primary Runoff", "General Election"] 0 1
    (by decide) (by decide) (by decide) (by decide) (by decide) (by decide)

/-! ### C5: candidate-cell pending-winner state machine -/

/-- C5.  `_parse_candidate_cell` behaves as the pending-winner state machine:
on the concrete cell `[checkmark image, link "Jane Doe" with tail " (i) ",
link "John Smith"]` it yields Jane Doe as winner and incumbent followed by
John Smith as neither; a winner-marker image sets the pending flag; a
non-candidate link (blank target or campaign-themes href) is skipped without
touching the flag; and a valid candidate link emits a record whose winner
flag is the pending state and whose incumbency is a literal `"(i)"` in the
link's tail text, resetting the flag. -/
theorem bp_candidate_cell_state_machine :
    (parseCandidateCell
      [BpNode.img (some "Green check mark"),
       BpNode.a (some "/Jane_Doe") none "Jane Doe" (some " (i) "),
       BpNode.a (some "/John_Smith") none "John Smith" none] =
      [("Jane Doe", "https://ballotpedia.org/Jane_Doe", true, true),
       ("John Smith", "https://ballotpedia.org/John_Smith", false, false)]) ∧
    (∀ (ns : List BpNode) (s : Bool) (alt : Option String),
      isWinnerMarkerAlt alt = true →
      parseCandidateCellAux (BpNode.img alt :: ns) s = parseCandidateCellAux ns true) ∧
    (∀ (ns : List BpNode) (s : Bool) (href target : Option String) (text : String)
        (tl : Option String),
      isSkippedLink href target = true →
      parseCandidateCellAux (BpNode.a href target text tl :: ns) s =
        parseCandidateCellAux ns s) ∧
    (∀ (ns : List BpNode) (s : Bool) (href target : Option String) (text : String)
        (tl : Option String),
      isSkippedLink href target = false →
      (bpCandidateName text).isEmpty = false →
      parseCandidateCellAux (BpNode.a href target text tl :: ns) s =
        (bpCandidateName text, bpCandidateUrl href, s,
          pyContains (pyOrEmpty tl) "(i)") :: parseCandidateCellAux ns false) := by
  refine ⟨by decide, ?_, ?_, ?_⟩
  · intro ns s alt h
    simp [parseCandidateCellAux, h]
  · intro ns s href target text tl h
    simp [parseCandidateCellAux, h]
  · intro ns s href target text tl h hname
    simp [parseCandidateCellAux, h, hname]

/-- C5 witness: the three state-machine transitions at concrete nodes —
a `"check"` marker sets the flag, a campaign-themes link is skipped with the
flag intact, and a plain link consumes the flag. -/
theorem bp_candidate_cell_state_machine_witness :
    (parseCandidateCellAux [BpNode.img (some "check")] false =
      parseCandidateCellAux [] true) ∧
    (parseCandidateCellAux [BpNode.a (some "x#Campaign_themes") none "Bob" none] true =
      parseCandidateCellAux [] true) ∧
    (parseCandidateCellAux [BpNode.a (some "/Bob") none "Bob" none] true =
      (bpCandidateName "Bob", bpCandidateUrl (some "/Bob"), true,
        pyContains (pyOrEmpty none) "(i)") :: parseCandidateCellAux [] false) := by
  refine ⟨?_, ?_, ?_⟩
  · exact bp_candidate_cell_state_machine.2.1 [] false (some "check") (by decide)
  · exact bp_candidate_cell_state_machine.2.2.1 [] true (some "x#Campaign_themes")
      none "Bob" none (by decide)
  · exact bp_candidate_cell_state_machine.2.2.2 [] true (some "/Bob") none "Bob" none
      (by decide) (by decide)

/-! ### C6: the layout-repair ladder -/

theorem meetsHeaderThreshold_iff (t e : List String) :
    meetsHeaderThreshold t e = true ↔ 3/5 ≤ headerOverlapFrac t e := by
  unfold meetsHeaderThreshold headerOverlapFrac
  by_cases h0 : expectedCount e = 0
  · simp only [h0, if_true, if_pos]
    norm_num
  · have hpos : 0 < ((expectedCount e : Nat) : ℚ) := by
      have h1 : 0 < expectedCount e := Nat.pos_of_ne_zero h0
      exact_mod_cast h1
    simp only [h0, if_false, decide_eq_true_eq]
    rw [div_le_div_iff₀ (by norm_num : (0:ℚ) < 5) hpos]
    constructor
    · intro h
      have h2 : ((3 * expectedCount e : Nat) : ℚ) ≤ ((5 * overlapCount t e : Nat) : ℚ) := by
        exact_mod_cast h
      push_cast at h2
      linarith
    · intro h
      have h2 : ((3 * expectedCount e : Nat) : ℚ) ≤ ((5 * overlapCount t e : Nat) : ℚ) := by
        push_cast
        linarith
      exact_mod_cast h2

/-- C6 counterexample.  A string-columned frame whose column names and first
row both fail the 0.6 overlap test, with the column count matching the era
layout exactly: the source does not do the claimed in-place positional
renaming there (it also demotes the column labels into a new first data
row). -/
theorem nc_layout_positional_counterexample :
    isIntColumns c6Df = false ∧
    dfColumnsLookLike c6Df c6Expected = false ∧
    firstRowLooksLike c6Df c6Expected = false ∧
    c6Df.cols.length = c6Expected.length ∧
    ensureExpectedRawLayout c6Df c6Expected ≠
      Except.ok { cols := c6Expected.map ColLabel.strL, rows := c6Df.rows } := by
  decide

/-- C6 (amended).  `_ensure_expected_raw_layout` follows the graceful
degradation ladder: (i) the columns are accepted as the header exactly when
their token-overlap ratio with the era's expected columns is ≥ 0.6, and the
first data row is promoted to header exactly when the frame is non-empty and
that row's ratio is ≥ 0.6; (ii) columns that look like the header are kept
(replaced by the exact era names when the width matches) and that branch
never raises; (iii) a header-like first row is dropped and the era names
applied — unless the frame is wider than the era layout, where the
`expected[: width]` label assignment raises a pandas `Length mismatch`
`ValueError`; (iv) when neither looks like the header and the column count
matches the era exactly, the columns are shifted back into row position and
the era names applied positionally, never raising; and (v) with a
mismatched count, names are assigned positionally as a last resort, again
raising when the frame is wider than the era layout. -/
theorem nc_layout_repair_ladder (df : PandasDF) (expected : List String) :
    (dfColumnsLookLike df expected = true ↔
      3/5 ≤ headerOverlapFrac (df.cols.map normCol) expected) ∧
    (firstRowLooksLike df expected = true ↔
      (df.rows ≠ [] ∧ 3/5 ≤ headerOverlapFrac (df.rows.headI.map normStr) expected)) ∧
    (isIntColumns df = false → dfColumnsLookLike df expected = true →
      ensureExpectedRawLayout df expected =
        Except.ok (if df.cols.length = expected.length then
          { cols := expected.map ColLabel.strL, rows := df.rows }
        else df)) ∧
    (isIntColumns df = false → dfColumnsLookLike df expected = false →
      firstRowLooksLike df expected = true →
      ensureExpectedRawLayout df expected =
        (if expected.length < df.cols.length then Except.error "Length mismatch"
        else Except.ok
          { cols := (expected.take df.cols.length).map ColLabel.strL,
            rows := df.rows.tail })) ∧
    (isIntColumns df = false → dfColumnsLookLike df expected = false →
      firstRowLooksLike df expected = false → df.cols.length = expected.length →
      ensureExpectedRawLayout df expected =
        Except.ok
          { cols := (expected.take df.cols.length).map ColLabel.strL,
            rows := (df.cols.map colLabelStr) :: df.rows }) ∧
    (isIntColumns df = false → dfColumnsLookLike df expected = false →
      firstRowLooksLike df expected = false → df.cols.length ≠ expected.length →
      ensureExpectedRawLayout df expected =
        (if expected.length < df.cols.length then Except.error "Length mismatch"
        else Except.ok
          { cols := (expected.take df.cols.length).map ColLabel.strL,
            rows := df.rows })) := by
  refine ⟨?_, ?_, ?_, ?_, ?_, ?_⟩
  · exact meetsHeaderThreshold_iff _ _
  · unfold firstRowLooksLike
    cases hrows : df.rows with
    | nil => simp [hrows]
    | cons r t =>
      rw [meetsHeaderThreshold_iff]
      simp [hrows]
  · intro hA hB
    simp [ensureExpectedRawLayout, hA, hB]
  · intro hA hB hC
    simp [ensureExpectedRawLayout, hA, hB, hC]
  · intro hA hB hC hw
    simp [ensureExpectedRawLayout, shiftColumnsIntoFirstRow, hA, hB, hC, hw]
  · intro hA hB hC hw
    simp [ensureExpectedRawLayout, hA, hB, hC, hw]

/-- C6 witness: the accept-columns, promote-first-row, shift and
raising-last-resort branches of the ladder, each at a concrete frame. -/
theorem nc_layout_repair_ladder_witness :
    (ensureExpectedRawLayout c6DfHeaderCols c6ExpectedCP =
      Except.ok (if c6DfHeaderCols.cols.length = c6ExpectedCP.length then
        { cols := c6ExpectedCP.map ColLabel.strL, rows := c6DfHeaderCols.rows }
      else c6DfHeaderCols)) ∧
    (ensureExpectedRawLayout c6DfHeaderRow c6ExpectedCP =
      (if c6ExpectedCP.length < c6DfHeaderRow.cols.length then
        Except.error "Length mismatch"
      else Except.ok
        { cols := (c6ExpectedCP.take c6DfHeaderRow.cols.length).map ColLabel.strL,
          rows := c6DfHeaderRow.rows.tail })) ∧
    (ensureExpectedRawLayout c6Df c6Expected =
      Except.ok
        { cols := (c6Expected.take c6Df.cols.length).map ColLabel.strL,
          rows := (c6Df.cols.map colLabelStr) :: c6Df.rows }) ∧
    (ensureExpectedRawLayout c6WideDf c6Expected =
      (if c6Expected.length < c6WideDf.cols.length then
        Except.error "Length mismatch"
      else Except.ok
        { cols := (c6Expected.take c6WideDf.cols.length).map ColLabel.strL,
          rows := c6WideDf.rows })) := by
  refine ⟨?_, ?_, ?_, ?_⟩
  · exact (nc_layout_repair_ladder c6DfHeaderCols c6ExpectedCP).2.2.1
      (by decide) (by decide)
  · exact (nc_layout_repair_ladder c6DfHeaderRow c6ExpectedCP).2.2.2.1
      (by decide) (by decide) (by decide)
  · exact (nc_layout_repair_ladder c6Df c6Expected).2.2.2.2.1
      (by decide) (by decide) (by decide) (by decide)
  · exact (nc_layout_repair_ladder c6WideDf c6Expected).2.2.2.2.2
      (by decide) (by decide) (by decide) (by decide)

/-! ### Dictionary-lookup facts -/

theorem pyDictGet_ne_none_iff (m : List (String × Int)) (k : String) :
    pyDictGet m k ≠ none ↔ ∃ p ∈ m, p.1 = k := by
  have hstep : (pyDictGet m k ≠ none) ↔
      (m.reverse.find? (fun p => p.1 = k)).isSome := by
    unfold pyDictGet
    cases m.reverse.find? (fun p => p.1 = k) <;> simp
  rw [hstep, List.find?_isSome]
  simp [List.mem_reverse]

theorem pyDictGet_fallbackAux_ne_none (names : List String) (nm : String)
    (h : nm ∈ names) (i : Int) :
    pyDictGet (fallbackCandidateMapAux names i) nm ≠ none := by
  rw [pyDictGet_ne_none_iff]
  induction names generalizing i with
  | nil => simp at h
  | cons a rest ih =>
    rcases List.mem_cons.mp h with h1 | h2
    · exact ⟨(a, i + 1), by simp [fallbackCandidateMapAux], h1.symm⟩
    · obtain ⟨p, hp, hpk⟩ := ih h2 (i + 1)
      exact ⟨p, by simp [fallbackCandidateMapAux, hp], hpk⟩

/-! ### C7: absent candidate names are dropped silently -/

/-- C7.  On a successfully parsed detail document: every emitted row's
candidate name is in the supplied map (a `(locality, candidate)` pair whose
name the map omits yields no row, and no error — the result is still `ok`);
every pair whose vote text parses and whose name the map contains is
emitted; and with no map supplied the parser behaves exactly as with the
positional fallback map built from the header names, which contains every
header name, so no row is dropped for that reason. -/
theorem es_county_missing_name_dropped
    (doc : DetailDoc) (eid : Int) (st : String) (m : List (String × Int))
    (out : List CountyVotes) (t : EsTable)
    (ht : firstCountyTable doc = some t)
    (h : parseCountyVotesFromDetail doc eid (some st) (some m) = .ok out) :
    (∀ r ∈ out, pyDictGet m r.candidate_name ≠ none) ∧
    (∀ tr ∈ iterLocalityRows t.trs, ∀ county, extractCountyName tr = some county →
      pyLower county ≠ "totals" →
      ∀ tds, extractCandidateVoteTds tr (extractCandidateNames t.ths).length
          (countTrailingIgnored t.theadThs) = some tds →
      ∀ nm td, (nm, td) ∈ (extractCandidateNames t.ths).zip tds →
      ∀ v, parsePyInt (extractVoteText td) = some v →
      ∀ cid, pyDictGet m nm = some cid →
      (⟨st, eid, county, cid, nm, v⟩ : CountyVotes) ∈ out) ∧
    (parseCountyVotesFromDetail doc eid (some st) none =
      parseCountyVotesFromDetail doc eid (some st)
        (some (fallbackCandidateMap (extractCandidateNames t.ths))) ∧
     ∀ nm ∈ extractCandidateNames t.ths,
       pyDictGet (fallbackCandidateMap (extractCandidateNames t.ths)) nm ≠ none) := by
  obtain ⟨rest, hfe⟩ : ∃ rest, doc.tables.filter hasCountyHeader = t :: rest := by
    unfold firstCountyTable at ht
    cases hh : doc.tables.filter hasCountyHeader with
    | nil => rw [hh] at ht; exact absurd ht (by simp)
    | cons a l =>
      rw [hh] at ht
      simp only [List.head?_cons, Option.some.injEq] at ht
      exact ⟨l, by rw [ht]⟩
  unfold parseCountyVotesFromDetail at h
  rw [hfe] at h
  have h2 : (if (extractCandidateNames t.ths).isEmpty then
      (Except.error "Could not extract candidate names from table header." :
        Except String (List CountyVotes))
    else .ok ((iterLocalityRows t.trs).flatMap
      (parseLocalityRow (extractCandidateNames t.ths) m st eid
        (countTrailingIgnored t.theadThs)))) = .ok out := h
  by_cases hni : (extractCandidateNames t.ths).isEmpty
  · rw [if_pos hni] at h2
    exact absurd h2 (by simp)
  · rw [if_neg hni] at h2
    have hout : (iterLocalityRows t.trs).flatMap
        (parseLocalityRow (extractCandidateNames t.ths) m st eid
          (countTrailingIgnored t.theadThs)) = out := by
      simpa using h2
    refine ⟨?_, ?_, ?_, ?_⟩
    · intro r hr
      rw [← hout] at hr
      obtain ⟨tr, htr, hrow⟩ := List.mem_flatMap.mp hr
      unfold parseLocalityRow at hrow
      cases hcn : extractCountyName tr with
      | none => simp only [hcn] at hrow; simp at hrow
      | some county =>
        simp only [hcn] at hrow
        by_cases htot : pyLower county = "totals"
        · simp only [if_pos htot] at hrow; simp at hrow
        · simp only [if_neg htot] at hrow
          cases htds : extractCandidateVoteTds tr
              (extractCandidateNames t.ths).length
              (countTrailingIgnored t.theadThs) with
          | none => simp only [htds] at hrow; simp at hrow
          | some tds =>
            simp only [htds] at hrow
            obtain ⟨p, hp, hpe⟩ := List.mem_filterMap.mp hrow
            cases hv : parsePyInt (extractVoteText p.2) with
            | none =>
              simp only [hv] at hpe
              exact Option.noConfusion hpe
            | some v =>
              simp only [hv] at hpe
              cases hcid : pyDictGet m p.1 with
              | none =>
                simp only [hcid] at hpe
                exact Option.noConfusion hpe
              | some cid =>
                simp only [hcid, Option.some.injEq] at hpe
                rw [← hpe]
                simp [hcid]
    · intro tr htr county hcn htot tds htds nm td hmem v hv cid hcid
      rw [← hout]
      refine List.mem_flatMap.mpr ⟨tr, htr, ?_⟩
      unfold parseLocalityRow
      simp only [hcn, if_neg htot, htds]
      refine List.mem_filterMap.mpr ⟨(nm, td), hmem, ?_⟩
      simp only [hv, hcid]
    · unfold parseCountyVotesFromDetail
      rw [hfe]
      rfl
    · intro nm hnm
      exact pyDictGet_fallbackAux_ne_none _ nm hnm 0

/-- C7 witness: on the concrete document `c8Doc`, a map missing
`"Jane Doe"` silently yields `ok []`; with a map carrying `"Jane Doe"`
the pair is emitted; and the map-less call equals the fallback-map call. -/
theorem es_county_missing_name_dropped_witness :
    parseCountyVotesFromDetail c8Doc 7 (some "VA") (some [("Other", 5)]) = .ok [] ∧
    (⟨"VA", 7, "Accomack", 9, "Jane Doe", 1234⟩ : CountyVotes) ∈
      ([⟨"VA", 7, "Accomack", 9, "Jane Doe", 1234⟩] : List CountyVotes) ∧
    parseCountyVotesFromDetail c8Doc 7 (some "VA") none =
      parseCountyVotesFromDetail c8Doc 7 (some "VA")
        (some (fallbackCandidateMap (extractCandidateNames c8Table.ths))) := by
  refine ⟨by decide, ?_, ?_⟩
  · exact (es_county_missing_name_dropped c8Doc 7 "VA" [("Jane Doe", 9)]
      [⟨"VA", 7, "Accomack", 9, "Jane Doe", 1234⟩] c8Table (by decide)
      (by decide)).2.1 c8Tr (by decide) "Accomack" (by decide) (by decide)
      [⟨false, ["1,234"], []⟩] (by decide) "Jane Doe" ⟨false, ["1,234"], []⟩
      (by decide) 1234 (by decide) 9 (by decide)
  · exact (es_county_missing_name_dropped c8Doc 7 "VA" [("Jane Doe", 9)]
      [⟨"VA", 7, "Accomack", 9, "Jane Doe", 1234⟩] c8Table (by decide)
      (by decide)).2.2.1

/-! ### C8: locator failure raises; the unit loop skips and concatenates -/

/-- C8.  When no table has a `County/City`/`City/Town`/`County` header cell,
`parse_county_votes_from_detail_html` raises (never returns a frame); in
`build_county_dataframe` a failing unit is skipped and the loop continues,
a succeeding unit contributes its rows in order, and the result is the
concatenation of the successful units' frames — an empty frame with the
expected output columns when none succeed. -/
theorem es_county_locator_error_and_skip :
    (∀ (doc : DetailDoc) (eid : Int) (st : Option String)
        (m : Option (List (String × Int))),
      doc.tables.filter hasCountyHeader = [] →
      parseCountyVotesFromDetail doc eid st m =
        .error "Could not find county/city results table.") ∧
    (∀ (getHtml : String → Except String DetailDoc)
        (j : Option String × Int × String) (js : List (Option String × Int × String))
        (e : String),
      runCountyUnit getHtml j = .error e →
      collectCountyFrames getHtml (j :: js) = collectCountyFrames getHtml js) ∧
    (∀ (getHtml : String → Except String DetailDoc)
        (j : Option String × Int × String) (js : List (Option String × Int × String))
        (rows : List CountyVotes),
      runCountyUnit getHtml j = .ok rows → rows ≠ [] →
      collectCountyFrames getHtml (j :: js) =
        rows :: collectCountyFrames getHtml js) ∧
    (∀ (getHtml : String → Except String DetailDoc) (sdf : StateDf),
      collectCountyFrames getHtml (buildJobs sdf) = [] →
      buildCountyDataframe getHtml sdf = ⟨countyOutCols sdf.hasState, []⟩) ∧
    (∀ (getHtml : String → Except String DetailDoc) (sdf : StateDf),
      collectCountyFrames getHtml (buildJobs sdf) ≠ [] →
      buildCountyDataframe getHtml sdf =
        ⟨countyVotesCols, (collectCountyFrames getHtml (buildJobs sdf)).flatten⟩) := by
  refine ⟨?_, ?_, ?_, ?_, ?_⟩
  · intro doc eid st m hfil
    unfold parseCountyVotesFromDetail
    rw [hfil]
  · intro getHtml j js e he
    have hstep : collectCountyFrames getHtml (j :: js) =
        match runCountyUnit getHtml j with
        | .error _ => collectCountyFrames getHtml js
        | .ok rows =>
          if rows.isEmpty then collectCountyFrames getHtml js
          else rows :: collectCountyFrames getHtml js := rfl
    rw [hstep, he]
  · intro getHtml j js rows hok hne
    have hstep : collectCountyFrames getHtml (j :: js) =
        match runCountyUnit getHtml j with
        | .error _ => collectCountyFrames getHtml js
        | .ok rows =>
          if rows.isEmpty then collectCountyFrames getHtml js
          else rows :: collectCountyFrames getHtml js := rfl
    rw [hstep, hok]
    simp [List.isEmpty_iff, hne]
  · intro getHtml sdf hempty
    unfold buildCountyDataframe
    by_cases hj : (buildJobs sdf).isEmpty
    · rw [if_pos hj]
    · rw [if_neg hj]
      simp [hempty]
  · intro getHtml sdf hne
    have hj : ¬ (buildJobs sdf).isEmpty = true := by
      cases hjobs : buildJobs sdf with
      | nil => rw [hjobs] at hne; simp [collectCountyFrames] at hne
      | cons a l => simp
    unfold buildCountyDataframe
    rw [if_neg hj]
    simp [List.isEmpty_iff, hne]

/-- C8 witness: a table-less document raises the locator error; a failing
fetch is skipped; a succeeding unit contributes `c8Row`; an all-failing run
returns the empty frame with the expected columns. -/
theorem es_county_locator_error_and_skip_witness :
    (parseCountyVotesFromDetail c8BadDoc 7 (some "VA") none =
      .error "Could not find county/city results table.") ∧
    (collectCountyFrames c8GetHtmlFail [(some "VA", 7, "u")] =
      collectCountyFrames c8GetHtmlFail []) ∧
    (collectCountyFrames c8GetHtml [(some "VA", 7, "u")] =
      [c8Row] :: collectCountyFrames c8GetHtml []) ∧
    (buildCountyDataframe c8GetHtmlFail ⟨true, [⟨"VA", 7, "u"⟩]⟩ =
      ⟨countyOutCols true, []⟩) := by
  refine ⟨?_, ?_, ?_, ?_⟩
  · exact es_county_locator_error_and_skip.1 c8BadDoc 7 (some "VA") none (by decide)
  · exact es_county_locator_error_and_skip.2.1 c8GetHtmlFail (some "VA", 7, "u") []
      "boom" (by decide)
  · exact es_county_locator_error_and_skip.2.2.1 c8GetHtml (some "VA", 7, "u") []
      [c8Row] (by decide) (by decide)
  · exact es_county_locator_error_and_skip.2.2.2.1 c8GetHtmlFail
      ⟨true, [⟨"VA", 7, "u"⟩]⟩ (by decide)

/-! ### C9: candidate ids are the 1-based extraction sequence -/

theorem parseSearchResultsAux_eq {τ γ : Type} (pr : τ → Option (RaceHeader × γ))
    (ec : γ → List CandTuple) (sn : Option String) (cs : String)
    (l : List τ) (out : List ElectionSearchRow) :
    parseSearchResultsAux pr ec sn cs l out =
      out ++ l.flatMap (emitRace pr ec sn cs) := by
  induction l generalizing out with
  | nil => simp [parseSearchResultsAux]
  | cons tr rest ih =>
    have hstep : parseSearchResultsAux pr ec sn cs (tr :: rest) out =
        match pr tr with
        | none => parseSearchResultsAux pr ec sn cs rest out
        | some hc =>
          if (ec hc.2).isEmpty then parseSearchResultsAux pr ec sn cs rest out
          else parseSearchResultsAux pr ec sn cs rest
            (out ++ emitCandidates sn cs hc.1 (ec hc.2)) := rfl
    cases hpr : pr tr with
    | none =>
      rw [hstep]
      simp only [hpr]
      rw [ih]
      simp [emitRace, hpr]
    | some hc =>
      rw [hstep]
      simp only [hpr]
      by_cases hempty : (ec hc.2).isEmpty
      · rw [if_pos hempty, ih]
        have hnil : ec hc.2 = [] := by simpa [List.isEmpty_iff] using hempty
        simp [emitRace, hpr, emitCandidates, hnil]
      · rw [if_neg hempty, ih]
        simp [emitRace, hpr, List.append_assoc]

theorem emitCandidates_enumFrom_ids (n : Nat) (l : List CandTuple) :
    (List.enumFrom n l).map (fun p => ((p.1 : Int) + 1)) =
      (List.range' (n + 1) l.length).map (fun (k : Nat) => (k : Int)) := by
  induction l generalizing n with
  | nil => simp
  | cons a t ih =>
    have hstep : (List.enumFrom n (a :: t)).map (fun p => ((p.1 : Int) + 1)) =
        ((n : Int) + 1) ::
          (List.enumFrom (n + 1) t).map (fun p => ((p.1 : Int) + 1)) := rfl
    have hstep2 : (List.range' (n + 1) (a :: t).length).map (fun (k : Nat) => (k : Int)) =
        (((n + 1 : Nat)) : Int) ::
          (List.range' (n + 2) t.length).map (fun (k : Nat) => (k : Int)) := rfl
    rw [hstep, hstep2, ih (n + 1)]
    congr 1

/-- C9.  `parse_search_results` is the per-row concatenation of per-race
emissions, and within each parsed race the emitted `candidate_id`s are
exactly the 1-based sequence `1, …, n` in candidate-extraction order,
where `n` is the number of extracted candidate records. -/
theorem es_search_candidate_ids {τ γ : Type} (parseRow : τ → Option (RaceHeader × γ))
    (extractCands : γ → List CandTuple) (stateName : Option String)
    (clientState : String) (trs : List τ) :
    parseSearchResults parseRow extractCands stateName clientState trs =
      trs.flatMap (emitRace parseRow extractCands stateName clientState) ∧
    (∀ (tr : τ) (h : RaceHeader) (cell : γ), parseRow tr = some (h, cell) →
      (emitRace parseRow extractCands stateName clientState tr).map
          (fun r => r.candidate_id) =
        (List.range' 1 (extractCands cell).length).map (fun (n : Nat) => (n : Int))) := by
  constructor
  · unfold parseSearchResults
    rw [parseSearchResultsAux_eq]
    simp
  · intro tr h cell hpr
    unfold emitRace
    simp only [hpr]
    unfold emitCandidates
    rw [List.map_map]
    have hcomp : ((fun r : ElectionSearchRow => r.candidate_id) ∘ (fun p =>
        ({ state := pyOrStrVal stateName clientState, election_id := h.election_id,
           year := h.year, office := h.office, district := h.district,
           stage := h.stage, candidate_id := ((p.1 : Int) + 1), candidate := p.2.name,
           party := normalizeParty p.2.party h.stage, total_vote_count := p.2.votes,
           vote_percentage := pyStrip (pyOrEmpty p.2.pct),
           contest_outcome := p.2.outcome } : ElectionSearchRow))) =
        (fun p : Nat × CandTuple => ((p.1 : Int) + 1)) := rfl
    rw [hcomp]
    exact emitCandidates_enumFrom_ids 0 (extractCands cell)

/-- C9 witness: on the toy page `[0, 1]` (row 0 parses into two candidates,
row 1 is rejected) the loop equals the flat emission and race 0's ids are
`[1, 2]`. -/
theorem es_search_candidate_ids_witness :
    parseSearchResults c9ParseRow id (some "VA") "va" [0, 1] =
      [0, 1].flatMap (emitRace c9ParseRow id (some "VA") "va") ∧
    (emitRace c9ParseRow id (some "VA") "va" 0).map (fun r => r.candidate_id) =
      (List.range' 1 c9Cands.length).map (fun (n : Nat) => (n : Int)) := by
  constructor
  · exact (es_search_candidate_ids c9ParseRow id (some "VA") "va" [0, 1]).1
  · exact (es_search_candidate_ids c9ParseRow id (some "VA") "va" [0, 1]).2 0
      c9Header c9Cands (by decide)

/-! ### C10: pagination loop — duplicate keys and termination -/

/-- C10 counterexample.  A page whose two rows share the key `(1, 1)` makes
`iter_search_results` yield both rows — the same `(election_id,
candidate_id)` pair twice within one invocation. -/
theorem iter_search_duplicate_key_counterexample :
    ¬ (((iterSearchResults c10Fetch 1 200).1.map searchKey).Nodup) := by
  decide

theorem iterSearchResultsAux_count_le (fetch : Nat → List ElectionSearchRow) :
    ∀ (fuel : Nat) (seen : List (Int × Int)) (page : Nat),
      (iterSearchResultsAux fetch seen page fuel).2 ≤ fuel := by
  intro fuel
  induction fuel with
  | zero => intro seen page; simp [iterSearchResultsAux]
  | succ f ih =>
    intro seen page
    have hstep : iterSearchResultsAux fetch seen page (f + 1) =
        if (fetch page).isEmpty then ([], 1)
        else if ((fetch page).filter (fun r => ¬(searchKey r ∈ seen))).isEmpty then
          ([], 1)
        else (((fetch page).filter (fun r => ¬(searchKey r ∈ seen))) ++
            (iterSearchResultsAux fetch
              (seen ++ ((fetch page).filter
                (fun r => ¬(searchKey r ∈ seen))).map searchKey)
              (page + 1) f).1,
          (iterSearchResultsAux fetch
            (seen ++ ((fetch page).filter
              (fun r => ¬(searchKey r ∈ seen))).map searchKey)
            (page + 1) f).2 + 1) := rfl
    rw [hstep]
    by_cases h1 : (fetch page).isEmpty
    · rw [if_pos h1]
      omega
    · rw [if_neg h1]
      by_cases h2 : ((fetch page).filter (fun r => ¬(searchKey r ∈ seen))).isEmpty
      · rw [if_pos h2]
        omega
      · rw [if_neg h2]
        have := ih (seen ++ ((fetch page).filter
          (fun r => ¬(searchKey r ∈ seen))).map searchKey) (page + 1)
        omega

theorem iterSearchResultsAux_nodup (fetch : Nat → List ElectionSearchRow)
    (hf : ∀ p, ((fetch p).map searchKey).Nodup) :
    ∀ (fuel : Nat) (seen : List (Int × Int)) (page : Nat),
      ((iterSearchResultsAux fetch seen page fuel).1.map searchKey).Nodup ∧
      ∀ k ∈ (iterSearchResultsAux fetch seen page fuel).1.map searchKey, k ∉ seen := by
  intro fuel
  induction fuel with
  | zero => intro seen page; simp [iterSearchResultsAux]
  | succ f ih =>
    intro seen page
    have hstep : iterSearchResultsAux fetch seen page (f + 1) =
        if (fetch page).isEmpty then ([], 1)
        else if ((fetch page).filter (fun r => ¬(searchKey r ∈ seen))).isEmpty then
          ([], 1)
        else (((fetch page).filter (fun r => ¬(searchKey r ∈ seen))) ++
            (iterSearchResultsAux fetch
              (seen ++ ((fetch page).filter
                (fun r => ¬(searchKey r ∈ seen))).map searchKey)
              (page + 1) f).1,
          (iterSearchResultsAux fetch
            (seen ++ ((fetch page).filter
              (fun r => ¬(searchKey r ∈ seen))).map searchKey)
            (page + 1) f).2 + 1) := rfl
    rw [hstep]
    by_cases h1 : (fetch page).isEmpty
    · rw [if_pos h1]
      simp
    · rw [if_neg h1]
      by_cases h2 : ((fetch page).filter (fun r => ¬(searchKey r ∈ seen))).isEmpty
      · rw [if_pos h2]
        simp
      · rw [if_neg h2]
        obtain ⟨ihn, ihs⟩ := ih (seen ++ ((fetch page).filter
          (fun r => ¬(searchKey r ∈ seen))).map searchKey) (page + 1)
        simp only [List.map_append]
        constructor
        · rw [List.nodup_append]
          refine ⟨(hf page).sublist ((List.filter_sublist _).map searchKey), ihn, ?_⟩
          intro k hk1 hk2
          refine (ihs k hk2) (List.mem_append.mpr (Or.inr ?_))
          exact hk1
        · intro k hk
          rcases List.mem_append.mp hk with hk1 | hk2
          · obtain ⟨r, hr, hkr⟩ := List.mem_map.mp hk1
            have := List.mem_filter.mp hr
            rw [← hkr]
            simpa using this.2
          · intro hkseen
            exact (ihs k hk2) (by simp [hkseen])

/-- C10 (amended).  The pagination loop of `iter_search_results`:
(i) provided every fetched page's rows have pairwise-distinct
`(election_id, candidate_id)` keys, no key is ever yielded twice in one
invocation (the seen-key filter only deduplicates against previous pages,
so it cannot split a within-page duplicate); (ii) the loop performs at most
`max_pages` page fetches; and (iii) it stops — after exactly one more
fetch — at the first page yielding no rows at all or no rows whose key is
new. -/
theorem iter_search_pagination (fetch : Nat → List ElectionSearchRow)
    (startPage maxPages : Nat) :
    ((∀ p, ((fetch p).map searchKey).Nodup) →
      ((iterSearchResults fetch startPage maxPages).1.map searchKey).Nodup) ∧
    (iterSearchResults fetch startPage maxPages).2 ≤ maxPages ∧
    (∀ (seen : List (Int × Int)) (page fuel : Nat),
      ((fetch page).filter (fun r => ¬(searchKey r ∈ seen))) = [] →
      iterSearchResultsAux fetch seen page (fuel + 1) = ([], 1)) ∧
    (∀ (seen : List (Int × Int)) (page fuel : Nat),
      ((fetch page).filter (fun r => ¬(searchKey r ∈ seen))) ≠ [] →
      iterSearchResultsAux fetch seen page (fuel + 1) =
        (((fetch page).filter (fun r => ¬(searchKey r ∈ seen))) ++
          (iterSearchResultsAux fetch
            (seen ++ ((fetch page).filter
              (fun r => ¬(searchKey r ∈ seen))).map searchKey)
            (page + 1) fuel).1,
         (iterSearchResultsAux fetch
           (seen ++ ((fetch page).filter
             (fun r => ¬(searchKey r ∈ seen))).map searchKey)
           (page + 1) fuel).2 + 1)) := by
  refine ⟨?_, ?_, ?_, ?_⟩
  · intro hf
    exact (iterSearchResultsAux_nodup fetch hf maxPages [] startPage).1
  · exact iterSearchResultsAux_count_le fetch maxPages [] startPage
  · intro seen page fuel hfil
    show (if (fetch page).isEmpty then (([], 1) : List ElectionSearchRow × Nat)
      else if ((fetch page).filter (fun r => ¬(searchKey r ∈ seen))).isEmpty then
        ([], 1)
      else _) = ([], 1)
    by_cases h1 : (fetch page).isEmpty
    · rw [if_pos h1]
    · rw [if_neg h1, if_pos (by simpa [List.isEmpty_iff] using hfil)]
  · intro seen page fuel hfil
    have h1 : ¬ (fetch page).isEmpty = true := by
      intro hc
      have : fetch page = [] := by simpa [List.isEmpty_iff] using hc
      exact hfil (by simp [this])
    show (if (fetch page).isEmpty then (([], 1) : List ElectionSearchRow × Nat)
      else if ((fetch page).filter (fun r => ¬(searchKey r ∈ seen))).isEmpty then
        ([], 1)
      else _) = _
    rw [if_neg h1, if_neg (by simpa [List.isEmpty_iff] using hfil)]

/-- C10 witness: with one distinct-keyed row per page the yielded keys are
duplicate-free and at most 200 fetches happen; with an empty source the
loop stops after its first fetch. -/
theorem iter_search_pagination_witness :
    (((iterSearchResults c10GoodFetch 1 200).1.map searchKey).Nodup) ∧
    (iterSearchResults c10GoodFetch 1 200).2 ≤ 200 ∧
    iterSearchResultsAux c10EmptyFetch [] 1 200 = ([], 1) := by
  have hf : ∀ p, ((c10GoodFetch p).map searchKey).Nodup := by
    intro p
    show (List.map searchKey [c10Row1]).Nodup
    decide
  refine ⟨?_, ?_, ?_⟩
  · exact (iter_search_pagination c10GoodFetch 1 200).1 hf
  · exact (iter_search_pagination c10GoodFetch 1 200).2.1
  · exact (iter_search_pagination c10EmptyFetch 1 200).2.2.1 [] 1 199 (by decide)

/-- C3 counterexample: the spec's first round-trip example is wrong.  The
lazy jurisdiction group of `_CONTEST_RE` stops at the first position where
the rest of the pattern matches; since `BOARD OF EDUCATION` is an office
alternative and `COUNTY` is not part of any office alternative, the
earliest successful stop captures `WAKE COUNTY`, not `WAKE`. -/
theorem nc_contest_grammar_counterexample :
    extractJurisdictionOfficeAndDistrict "WAKE COUNTY BOARD OF EDUCATION DISTRICT 3" ≠
      (some "Wake", some "Board Of Education", some "District 3") := by
  decide

/-- C3 (amended): `extract_jurisdiction_office_and_district` maps the first
example to jurisdiction `"Wake County"` (the `COUNTY` token stays inside
the jurisdiction capture), maps the second example to office `"Council"`
(the second `CITY` token is consumed by the optional municipal filler
`(?:CITY|TOWN|VILLAGE)\s+` preceding the office group, so it never reaches
the office capture), and returns `(none, none, none)` on every input whose
normalized form is matched by neither pattern. -/
theorem nc_contest_grammar_roundtrip :
    extractJurisdictionOfficeAndDistrict "WAKE COUNTY BOARD OF EDUCATION DISTRICT 3" =
      (some "Wake County", some "Board Of Education", some "District 3") ∧
    extractJurisdictionOfficeAndDistrict "CITY OF RALEIGH CITY COUNCIL AT-LARGE" =
      (some "Raleigh", some "Council", some "At Large") ∧
    ∀ s : String, rmatch contestRe1 (normalizeContest s) = none →
      rmatch (contestRe2 (normalizeContest s).length) (normalizeContest s) = none →
      extractJurisdictionOfficeAndDistrict s = (none, none, none) := by
  refine ⟨by decide, by decide, ?_⟩
  intro s h1 h2
  simp only [extractJurisdictionOfficeAndDistrict, h1, h2]

/-- C3 witness: the unmatched-label clause of `nc_contest_grammar_roundtrip`
applied to the concrete label `"ZZZ"`, with both no-match hypotheses
evaluated. -/
theorem nc_contest_grammar_roundtrip_witness :
    extractJurisdictionOfficeAndDistrict "ZZZ" = (none, none, none) :=
  nc_contest_grammar_roundtrip.2.2 "ZZZ" (by decide) (by decide)

end DownBallot
